import Mathlib

/-!
cimbGo2, exchange-rate monitor: verification development

Shallow embedding of the Go sources `utils.go`, `chrome_helper.go`,
`main.go` and `whatsapp_service.go`.

Modelling conventions.

* `float64` values are modelled by `Float64`: NaN, the two infinities, or a
  finite value named by a rational number (signed zeros are identified,
  which no Go comparison can tell apart).  Only the comparison operators
  `<=`, `>=`, `>`, `==` and `!=` are used by the program and they are exact
  on floats, so they are modelled exactly, NaN included.
* Go strings are modelled by Lean strings (valid UTF-8 text).
* Calls into external collaborators (the headless browser, the WhatsApp
  client, the operating system) are answered by oracles stored in `World`;
  every call is recorded in `World.trace`.
-/

namespace CimbGo

/-! ## float64 -/

/-- Go `float64` as seen by the comparison operators. -/
inductive Float64 where
  | nan
  | negInf
  | fin (q : ℚ)
  | posInf
  deriving DecidableEq

namespace Float64

/-- Go `a <= b` on float64 (IEEE 754: false as soon as one side is NaN). -/
def le : Float64 → Float64 → Bool
  | nan, _ => false
  | _, nan => false
  | negInf, _ => true
  | fin _, negInf => false
  | fin a, fin b => decide (a ≤ b)
  | fin _, posInf => true
  | posInf, posInf => true
  | posInf, _ => false

/-- Go `a >= b` on float64. -/
def ge (a b : Float64) : Bool := le b a

/-- Go `a == b` on float64 (NaN is equal to nothing, itself included). -/
def eq : Float64 → Float64 → Bool
  | nan, _ => false
  | _, nan => false
  | negInf, negInf => true
  | fin a, fin b => decide (a = b)
  | posInf, posInf => true
  | _, _ => false

/-- Go `a != b` on float64. -/
def ne (a b : Float64) : Bool := !(eq a b)

/-- Go `a < b` on float64. -/
def lt (a b : Float64) : Bool := le a b && ne a b

/-- Go `a > b` on float64. -/
def gt (a b : Float64) : Bool := lt b a

/-- The zero value of a Go `float64` variable. -/
def zero : Float64 := fin 0

/-- The finite value `mantissa / 10 ^ places`, e.g. `ofDecimal 240 2` is 2.40. -/
def ofDecimal (mantissa : ℤ) (places : ℕ) : Float64 := fin (mkRat mantissa (10 ^ places))

end Float64

/-! ## strings -/

/-- Go `strings.HasPrefix(s, pre)`. -/
def HasPrefix (s pre : String) : Bool := pre.data.isPrefixOf s.data

/-- Go `strings.HasSuffix(s, suf)`. -/
def HasSuffix (s suf : String) : Bool := suf.data.reverse.isPrefixOf s.data.reverse

/-- Go `strings.TrimPrefix(s, pre)`: `s` without the leading `pre` when `s`
starts with it, `s` itself otherwise. -/
def TrimPrefix (s pre : String) : String :=
  if HasPrefix s pre then String.mk (s.data.drop pre.data.length) else s

/-- Go `strings.TrimSuffix(s, suf)`. -/
def TrimSuffix (s suf : String) : String :=
  if HasSuffix s suf then String.mk (s.data.take (s.data.length - suf.data.length)) else s

/-- Substring search on character lists: `sub` occurs in `s` at some offset. -/
def containsChars : List Char → List Char → Bool
  | [], sub => sub.isPrefixOf []
  | c :: s, sub => sub.isPrefixOf (c :: s) || containsChars s sub

/-- Go `strings.Contains(s, sub)` (case-sensitive). -/
def Contains (s sub : String) : Bool := containsChars s.data sub.data

/-! ## errors -/

deriving instance DecidableEq for Except

/-- The error values the program builds or receives. -/
inductive GoError where
  /-- an error returned by `chromedp.Run` -/
  | chromedp (msg : String)
  /-- the `*strconv.NumError` of `strconv.ParseFloat` on the given input -/
  | numError (input : String)
  /-- `fmt.Errorf("error fetching label: %w", err)` -/
  | fetchingLabel (cause : GoError)
  /-- `fmt.Errorf("error parsing rate: %w", err)` -/
  | parsingRate (cause : GoError)
  /-- the value of `ctx.Err()` once the context is done -/
  | ctxErr
  /-- a nil error value given to `%w` -/
  | nilError
  /-- `fmt.Errorf("failed to fetch label after %d attempts: %w", maxRetries, err)` -/
  | fetchExhausted (attempts : Nat) (cause : GoError)
  /-- an error returned by `client.GetJoinedGroups` -/
  | whatsmeow (msg : String)
  /-- `fmt.Errorf("error fetching joined groups: %v", err)` -/
  | fetchingGroups (cause : GoError)
  /-- `fmt.Errorf("no matching group found for ID: %s", inviteLinkID)` -/
  | noMatchingGroup (inviteLinkID : String)
  deriving DecidableEq

/-! ## utils.go -/

/-- The `Config` record of `main.go`.  The `Client` pointer is an external
object; its behaviour is given by the oracles of `World`. -/
structure Config where
  Connected : Bool
  DesiredMinRate : Float64
  DesiredMaxRate : Float64
  NotifyTarget : String
  IsGroup : Bool
  LastNotifiedRate : Float64
  deriving DecidableEq

/-- The zero value of the package-level `var config Config`. -/
def Config.zero : Config :=
  { Connected := false, DesiredMinRate := Float64.zero, DesiredMaxRate := Float64.zero,
    NotifyTarget := "", IsGroup := false, LastNotifiedRate := Float64.zero }

/-- Go `shouldNotify` (utils.go). -/
def shouldNotify (currentRate : Float64) (config : Config) : Bool :=
  (Float64.le currentRate config.DesiredMinRate || Float64.ge currentRate config.DesiredMaxRate) &&
    Float64.ne currentRate config.LastNotifiedRate

/-! ## chrome_helper.go: parseRate -/

/-- The fixed label prefix stripped by `parseRate`. -/
def rateLabelLead : String := "SGD 1.00 = MYR "

/-- Go `parseRate` (chrome_helper.go).  `ParseFloat` stands for
`strconv.ParseFloat(_, 64)` of the Go standard library: `none` is a non-nil
error. -/
def parseRate (ParseFloat : String → Option Float64) (labelContent : String) :
    Except GoError Float64 :=
  let rateStr := TrimPrefix labelContent rateLabelLead
  match ParseFloat rateStr with
  | none => Except.error (GoError.parsingRate (GoError.numError rateStr))
  | some currentRate => Except.ok currentRate

/-- Value of a run of decimal digits read left to right, `none` when a
character is not a digit. -/
def digitsValue : List Char → Nat → Option Nat
  | [], acc => some acc
  | c :: cs, acc => if c.isDigit then digitsValue cs (10 * acc + (c.toNat - 48)) else none

/-- Unsigned plain decimal `digits[.digits]` with at least one digit, as the
pair of its digits read as one integer and the number of decimal places. -/
def decimalValue (cs : List Char) : Option (Nat × Nat) :=
  let ip := cs.takeWhile (fun c => c != '.')
  let fp := (cs.dropWhile (fun c => c != '.')).drop 1
  if ip.length + fp.length = 0 then none
  else (digitsValue (ip ++ fp) 0).map (fun n => (n, fp.length))

/-- The plain-decimal fragment of `strconv.ParseFloat(s, 64)`: an optional
sign, digits, an optional point and digits.  On such input Go returns the
float64 nearest to the decimal value, named here by that value.  Inputs
outside the fragment are rejected; Go accepts a few more spellings
(exponents, hexadecimal floats, `inf`, `nan`), none of which is used below. -/
def parseFloatDecimal (s : String) : Option Float64 :=
  match s.data with
  | '-' :: cs => (decimalValue cs).map (fun p => Float64.ofDecimal (-(p.1 : ℤ)) p.2)
  | '+' :: cs => (decimalValue cs).map (fun p => Float64.ofDecimal (p.1 : ℤ) p.2)
  | cs => (decimalValue cs).map (fun p => Float64.ofDecimal (p.1 : ℤ) p.2)

/-! ## the outside world -/

/-- A whatsmeow `types.JID` without agent and device parts (the only kind the
program builds with `types.NewJID` and meets in group lists). -/
structure JID where
  User : String
  Server : String
  deriving DecidableEq

/-- The whatsmeow method `JID.String()` on such identifiers. -/
def JID.String (jid : JID) : String :=
  if jid.User.data.length > 0 then jid.User ++ "@" ++ jid.Server else jid.Server

/-- Whatsmeow `types.GroupServer`. -/
def GroupServer : String := "g.us"

/-- Whatsmeow `types.DefaultUserServer`. -/
def DefaultUserServer : String := "s.whatsapp.net"

/-- Whatsmeow `types.NewJID(user, server)`. -/
def NewJID (user server : String) : JID := { User := user, Server := server }

/-- The fields of whatsmeow `types.GroupInfo` the program reads. -/
structure GroupInfo where
  Name : String
  JID : JID
  deriving DecidableEq

/-- The lines written through `logger`. -/
inductive LogMsg where
  /-- "WhatsApp client not connected. Skipping notification." -/
  | notConnected
  /-- "Error matching group ID: %v" -/
  | errorMatchingGroup (err : GoError)
  /-- "WhatsApp notification sent successfully" -/
  | notificationSent
  /-- "Attempt %d failed: %v. Retrying in %v..." of sendWhatsAppNotification -/
  | sendAttemptFailed (attempt : Nat)
  /-- "Failed to send WhatsApp message after %d attempts" -/
  | sendFailedAfter (maxRetries : Nat)
  /-- "Failed to send fallback message to self: %v" -/
  | fallbackFailed
  /-- "Fallback message sent to self successfully" -/
  | fallbackSent
  /-- "Attempt %d failed: %v. Retrying in %v..." of fetchAndPrintLabelWithRetry -/
  | fetchAttemptFailed (attempt : Nat) (err : GoError)
  /-- "Initial fetch error: %v" -/
  | initialFetchError (err : GoError)
  /-- "Error after retries: %v. Recreating Chrome context." -/
  | errorAfterRetries (err : GoError)
  /-- "Restarting program..." -/
  | restarting
  /-- "Received interrupt signal. Shutting down..." -/
  | interrupt
  /-- "Failed to start Chrome: %v" -/
  | failedToStartChrome
  /-- "Failed to get Chrome PID: %v" -/
  | failedToGetPID
  /-- "Attempting to kill all Chrome instances started by the application..." -/
  | killAllBegin
  /-- "Killing Chrome process with PID: %d" -/
  | killing (pid : Nat)
  /-- "Error killing Chrome process %d: %v" -/
  | errorKilling (pid : Nat)
  /-- "Finished attempting to kill all Chrome instances started by the application." -/
  | killAllEnd
  /-- "Invalid input. Please enter a valid number." -/
  | invalidInput
  /-- "Maximum rate must be greater than minimum rate. Please try again." -/
  | maxNotGreater
  /-- "Error: %v" of setupUserPreferences -/
  | setupError (err : GoError)
  /-- "Setting target to personal WhatsApp number." -/
  | settingPersonal
  /-- "Matched group ID: %s" -/
  | matchedGroup (id : String)
  /-- "Target set to WhatsApp group" -/
  | targetGroup
  /-- "Target set to personal WhatsApp number:" -/
  | targetPersonal (target : String)
  deriving DecidableEq

/-- The externally visible actions of the program, in the order performed. -/
inductive Event where
  /-- the `chromedp.Run(ctx, Navigate, WaitVisible, Text)` of fetchAndPrintLabel -/
  | fetch (ctx : Nat)
  /-- a call of printColoredRate -/
  | printColoredRate (currentRate prevRate : Float64)
  /-- entry into sendWhatsAppNotification with the given rate -/
  | notify (rate : Float64)
  /-- a call of `client.GetJoinedGroups` -/
  | getJoinedGroups
  /-- the `client.SendMessage` to the recipient (line 146), with the rate of the alert text -/
  | sendMessage (recipient : JID) (rate : Float64)
  /-- the fallback `client.SendMessage` to the own identity (line 161) -/
  | sendFallback (selfJID : JID) (rate : Float64)
  /-- a wait of the given number of milliseconds (`time.Sleep`, `time.After`) -/
  | sleep (ms : Nat)
  /-- a line written through `logger` -/
  | log (msg : LogMsg)
  /-- a call of the cancel function of the given Chrome context -/
  | cancel (ctx : Nat)
  /-- a call of createChromeContext, which made the given context -/
  | createChromeContext (ctx : Nat)
  /-- `process.Kill()` on the given process -/
  | kill (pid : Nat)
  deriving DecidableEq

/-- What the n-th createChromeContext meets. -/
inductive ChromeStart where
  /-- `chromedp.Run(ctx)` fails -/
  | startFailed
  /-- Chrome starts, the process listing command fails -/
  | pidLookupFailed
  /-- Chrome starts, these processes are listed and found -/
  | found (pids : List Nat)
  deriving DecidableEq

/-- State of everything outside the program, with the answers the external
collaborators give (indexed by the number of the call) and the package-level
registries of chrome_helper.go. -/
structure World where
  /-- the n-th fetch through chromedp: an error or the text of `#rateStr` -/
  fetchResult : Nat → Except String String
  fetches : Nat
  /-- whether the n-th `select` of fetchAndPrintLabelWithRetry finds `ctx.Done()` ready -/
  ctxDone : Nat → Bool
  selects : Nat
  /-- whether the n-th `client.SendMessage` returns a nil error -/
  sendOk : Nat → Bool
  sends : Nat
  /-- the n-th `client.GetJoinedGroups` -/
  joinedGroups : Nat → Except String (List GroupInfo)
  groupCalls : Nat
  /-- what the n-th createChromeContext meets -/
  chromeStart : Nat → ChromeStart
  contextsCreated : Nat
  /-- whether `process.Kill()` on the given process returns a nil error -/
  killOk : Nat → Bool
  /-- the own identity, `config.Client.Store.ID.ToNonAD()` -/
  selfJID : JID
  /-- the lines still to be read from standard input -/
  stdin : List String
  /-- package-level `chromeContexts` -/
  chromeContexts : List Nat
  /-- package-level `chromeProcesses` -/
  chromeProcesses : List Nat
  trace : List Event

namespace World

/-- Record an action. -/
def emit (w : World) (e : Event) : World := { w with trace := w.trace ++ [e] }

/-- Record a logger line. -/
def logf (w : World) (m : LogMsg) : World := w.emit (Event.log m)

/-- The fetch of fetchAndPrintLabel through chromedp. -/
def runFetch (w : World) (ctx : Nat) : Except String String × World :=
  (w.fetchResult w.fetches, { w with fetches := w.fetches + 1, trace := w.trace ++ [Event.fetch ctx] })

/-- The call `client.GetJoinedGroups()`. -/
def GetJoinedGroups (w : World) : Except String (List GroupInfo) × World :=
  (w.joinedGroups w.groupCalls,
    { w with groupCalls := w.groupCalls + 1, trace := w.trace ++ [Event.getJoinedGroups] })

/-- The call `client.SendMessage` of the retry loop; `true` is a nil error. -/
def SendMessage (w : World) (recipient : JID) (rate : Float64) : Bool × World :=
  (w.sendOk w.sends,
    { w with sends := w.sends + 1, trace := w.trace ++ [Event.sendMessage recipient rate] })

/-- The fallback call `client.SendMessage` to the own identity. -/
def SendFallback (w : World) (rate : Float64) : Bool × World :=
  (w.sendOk w.sends,
    { w with sends := w.sends + 1, trace := w.trace ++ [Event.sendFallback w.selfJID rate] })

/-- The `select` between `ctx.Done()` and `time.After(retryDelay)`. -/
def selectDone (w : World) (retryDelayMs : Nat) : Bool × World :=
  if w.ctxDone w.selects then (true, { w with selects := w.selects + 1 })
  else (false, { w with selects := w.selects + 1, trace := w.trace ++ [Event.sleep retryDelayMs] })

end World

/-! ## whatsapp_service.go -/

/-- The loop body of Go `isGroupIdentifier`, over the runes of the input. -/
def isGroupIdentifierRunes : List Char → Bool
  | [] => false
  | char :: rest =>
    if (decide (char < '0') || decide (char > '9')) && char != '-' && char != '_' then true
    else isGroupIdentifierRunes rest

/-- Go `isGroupIdentifier` (whatsapp_service.go). -/
def isGroupIdentifier (input : String) : Bool := isGroupIdentifierRunes input.data

/-- The `for _, group := range groups` loop of Go `matchGroupID`. -/
def matchGroupLoop (inviteLinkID : String) : List GroupInfo → Except GoError String
  | [] => Except.error (GoError.noMatchingGroup inviteLinkID)
  | group :: rest =>
    let trimmedJID := TrimSuffix group.JID.String "@g.us"
    if Contains group.Name inviteLinkID || Contains trimmedJID inviteLinkID ||
        Contains group.JID.String inviteLinkID then
      Except.ok trimmedJID
    else matchGroupLoop inviteLinkID rest

/-- Go `matchGroupID` (whatsapp_service.go). -/
def matchGroupID (inviteLinkID : String) (w : World) : Except GoError String × World :=
  match w.GetJoinedGroups with
  | (Except.error err, w1) => (Except.error (GoError.fetchingGroups (GoError.whatsmeow err)), w1)
  | (Except.ok groups, w1) => (matchGroupLoop inviteLinkID groups, w1)

/-- The `for attempt := 0; attempt < maxRetries; attempt++` loop of Go
`sendWhatsAppNotification`, with `remaining = maxRetries - attempt` rounds to
go; the result is `true` when the function returned from inside the loop. -/
def sendLoop (recipient : JID) (rate : Float64) (retryDelayMs : Nat) :
    Nat → Nat → World → Bool × World
  | 0, _, w => (false, w)
  | remaining + 1, attempt, w =>
    match w.SendMessage recipient rate with
    | (true, w1) => (true, w1.logf LogMsg.notificationSent)
    | (false, w1) =>
      sendLoop recipient rate retryDelayMs remaining (attempt + 1)
        ((w1.logf (LogMsg.sendAttemptFailed (attempt + 1))).emit (Event.sleep retryDelayMs))

/-- The part of Go `sendWhatsAppNotification` after the recipient is known. -/
def sendToRecipient (config : Config) (rate : Float64) (recipient : JID) (w : World) : World :=
  let maxRetries := 3
  let retryDelayMs := 5000
  match sendLoop recipient rate retryDelayMs maxRetries 0 w with
  | (true, w1) => w1
  | (false, w1) =>
    let w2 := w1.logf (LogMsg.sendFailedAfter maxRetries)
    if config.IsGroup then
      match w2.SendFallback rate with
      | (false, w3) => w3.logf LogMsg.fallbackFailed
      | (true, w3) => w3.logf LogMsg.fallbackSent
    else w2

/-- Go `sendWhatsAppNotification` (whatsapp_service.go).  The configuration is
only read. -/
def sendWhatsAppNotification (config : Config) (rate : Float64) (w : World) : World :=
  let w0 := w.emit (Event.notify rate)
  if !config.Connected then w0.logf LogMsg.notConnected
  else if config.IsGroup then
    match matchGroupID config.NotifyTarget w0 with
    | (Except.error err, w1) => w1.logf (LogMsg.errorMatchingGroup err)
    | (Except.ok matchedGroupID, w1) =>
      let trimmedID := TrimSuffix matchedGroupID "@g.us"
      sendToRecipient config rate (NewJID trimmedID GroupServer) w1
  else sendToRecipient config rate (NewJID config.NotifyTarget DefaultUserServer) w0

/-! ## chrome_helper.go -/

/-- What a fetch leaves behind: the returned error (`none` is nil), the
variable behind `prevRate`, the record behind `config`, and the world. -/
structure FetchOut where
  err : Option GoError
  prevRate : Float64
  config : Config
  world : World

/-- Go `fetchAndPrintLabel` (chrome_helper.go). -/
def fetchAndPrintLabel (ParseFloat : String → Option Float64) (ctx : Nat) (prevRate : Float64)
    (config : Config) (w : World) : FetchOut :=
  match w.runFetch ctx with
  | (Except.error e, w1) =>
    { err := some (GoError.fetchingLabel (GoError.chromedp e)), prevRate := prevRate,
      config := config, world := w1 }
  | (Except.ok labelContent, w1) =>
    match parseRate ParseFloat labelContent with
    | Except.error err => { err := some err, prevRate := prevRate, config := config, world := w1 }
    | Except.ok currentRate =>
      let w2 := w1.emit (Event.printColoredRate currentRate prevRate)
      if shouldNotify currentRate config then
        let w3 := sendWhatsAppNotification config currentRate w2
        { err := none, prevRate := currentRate,
          config := { config with LastNotifiedRate := currentRate }, world := w3 }
      else { err := none, prevRate := currentRate, config := config, world := w2 }

/-- The `for attempt := 0; attempt < maxRetries; attempt++` loop of Go
`fetchAndPrintLabelWithRetry` together with the return after it, with
`remaining = maxRetries - attempt` rounds to go and the current value of the
variable `err`. -/
def fetchRetryLoop (ParseFloat : String → Option Float64) (ctx : Nat) (maxRetries retryDelayMs : Nat) :
    Nat → Nat → Option GoError → Float64 → Config → World → FetchOut
  | 0, _, err, prevRate, config, w =>
    { err := some (GoError.fetchExhausted maxRetries (err.getD GoError.nilError)),
      prevRate := prevRate, config := config, world := w }
  | remaining + 1, attempt, _, prevRate, config, w =>
    let out := fetchAndPrintLabel ParseFloat ctx prevRate config w
    match out.err with
    | none => out
    | some err =>
      let w1 := out.world.logf (LogMsg.fetchAttemptFailed (attempt + 1) err)
      match w1.selectDone retryDelayMs with
      | (true, w2) =>
        { err := some GoError.ctxErr, prevRate := out.prevRate, config := out.config, world := w2 }
      | (false, w2) =>
        fetchRetryLoop ParseFloat ctx maxRetries retryDelayMs remaining (attempt + 1) (some err)
          out.prevRate out.config w2

/-- Go `fetchAndPrintLabelWithRetry` (chrome_helper.go). -/
def fetchAndPrintLabelWithRetry (ParseFloat : String → Option Float64) (ctx : Nat)
    (prevRate : Float64) (config : Config) (w : World) : FetchOut :=
  let maxRetries := 3
  let retryDelayMs := 5000
  fetchRetryLoop ParseFloat ctx maxRetries retryDelayMs maxRetries 0 none prevRate config w

/-- Go `createChromeContext` (chrome_helper.go): the new context; its cancel
function is `Event.cancel` on it. -/
def createChromeContext (w : World) : Nat × World :=
  let ctx := w.contextsCreated
  let w1 := { w with contextsCreated := w.contextsCreated + 1,
                     trace := w.trace ++ [Event.createChromeContext ctx] }
  match w.chromeStart ctx with
  | ChromeStart.startFailed => (ctx, w1.logf LogMsg.failedToStartChrome)
  | ChromeStart.pidLookupFailed => (ctx, (w1.emit (Event.sleep 1000)).logf LogMsg.failedToGetPID)
  | ChromeStart.found pids =>
    let w2 := w1.emit (Event.sleep 1000)
    (ctx, { w2 with chromeProcesses := w2.chromeProcesses ++ pids })

/-- The `for _, cancel := range chromeContexts` loop of killAllChromeInstances. -/
def cancelAll : List Nat → World → World
  | [], w => w
  | ctx :: rest, w => cancelAll rest (w.emit (Event.cancel ctx))

/-- The `for _, process := range chromeProcesses` loop of killAllChromeInstances. -/
def killProcesses : List Nat → World → World
  | [], w => w
  | pid :: rest, w =>
    let w1 := (w.logf (LogMsg.killing pid)).emit (Event.kill pid)
    killProcesses rest (if w.killOk pid then w1 else w1.logf (LogMsg.errorKilling pid))

/-- Go `killAllChromeInstances` (chrome_helper.go). -/
def killAllChromeInstances (w : World) : World :=
  let w1 := w.logf LogMsg.killAllBegin
  let w2 := { cancelAll w1.chromeContexts w1 with chromeContexts := [] }
  let w3 := { killProcesses w2.chromeProcesses w2 with chromeProcesses := [] }
  w3.logf LogMsg.killAllEnd

/-! ## main.go -/

/-- Go `unicode.IsSpace`. -/
def isSpace (c : Char) : Bool :=
  let n := c.toNat
  (9 ≤ n && n ≤ 13) || n = 32 || n = 133 || n = 160 || n = 5760 || (8192 ≤ n && n ≤ 8202) ||
    n = 8232 || n = 8233 || n = 8239 || n = 8287 || n = 12288

/-- Go `strings.TrimSpace`. -/
def TrimSpace (s : String) : String :=
  String.mk ((s.data.dropWhile isSpace).reverse.dropWhile isSpace).reverse

/-- One `scanner.Scan(); scanner.Text()`: the next line, the empty string at end of input. -/
def World.scanLine (w : World) : String × World :=
  match w.stdin with
  | [] => ("", w)
  | line :: rest => (line, { w with stdin := rest })

/-- The loop asking for the minimum rate, over the lines still to be read;
`none` when the input ends before a number is read (the Go loop then never
ends). -/
def readMinRate (ParseFloat : String → Option Float64) (config : Config) :
    List String → World → Option (Config × World)
  | [], _ => none
  | input :: rest, w =>
    match ParseFloat input with
    | some v => some ({ config with DesiredMinRate := v }, { w with stdin := rest })
    | none => readMinRate ParseFloat config rest (w.logf LogMsg.invalidInput)

/-- The loop asking for the maximum rate. -/
def readMaxRate (ParseFloat : String → Option Float64) (config : Config) :
    List String → World → Option (Config × World)
  | [], _ => none
  | input :: rest, w =>
    match ParseFloat input with
    | some v =>
      if Float64.gt v config.DesiredMinRate then
        some ({ config with DesiredMaxRate := v }, { w with stdin := rest })
      else readMaxRate ParseFloat config rest (w.logf LogMsg.maxNotGreater)
    | none => readMaxRate ParseFloat config rest (w.logf LogMsg.invalidInput)

/-- The target part of Go `setupUserPreferences` (lines 193 to 217). -/
def setupTarget (config : Config) (w : World) : Config × World :=
  match w.scanLine with
  | (line, w1) =>
    let config1 := { config with NotifyTarget := TrimSpace line }
    let config2 := { config1 with IsGroup := isGroupIdentifier config1.NotifyTarget }
    if config2.IsGroup then
      match matchGroupID config2.NotifyTarget w1 with
      | (Except.error err, w2) =>
        ({ config2 with IsGroup := false },
          (w2.logf (LogMsg.setupError err)).logf LogMsg.settingPersonal)
      | (Except.ok matchedGroupID, w2) =>
        ({ config2 with NotifyTarget := matchedGroupID },
          (w2.logf (LogMsg.matchedGroup matchedGroupID)).logf LogMsg.targetGroup)
    else (config2, w1.logf (LogMsg.targetPersonal config2.NotifyTarget))

/-- Go `setupUserPreferences` (main.go), on the package-level `config`. -/
def setupUserPreferences (ParseFloat : String → Option Float64) (config : Config) (w : World) :
    Option (Config × World) :=
  match readMinRate ParseFloat config w.stdin w with
  | none => none
  | some (config1, w1) =>
    match readMaxRate ParseFloat config1 w1.stdin w1 with
    | none => none
    | some (config2, w2) => some (setupTarget config2 w2)

/-- The case taken by one round of the `select` of startProgram. -/
inductive Select where
  /-- `case <-ticker.C` -/
  | ticker
  /-- `case <-restartChan` -/
  | restart
  /-- `case <-signalChan` -/
  | signal
  /-- `case <-ctx.Done()` -/
  | ctxDone
  /-- `default` -/
  | idle
  deriving DecidableEq

/-- The local variables of startProgram inside its loop, the package-level
`config`, and the world. -/
structure LoopState where
  ctx : Nat
  prevRate : Float64
  config : Config
  world : World

/-- One round of the `for { select { ... } }` of Go `startProgram`; the flag
is `true` when the round executes `return`. -/
def loopStep (ParseFloat : String → Option Float64) (sel : Select) (st : LoopState) :
    LoopState × Bool :=
  match sel with
  | Select.ticker =>
    let out := fetchAndPrintLabelWithRetry ParseFloat st.ctx st.prevRate st.config st.world
    match out.err with
    | none => ({ ctx := st.ctx, prevRate := out.prevRate, config := out.config, world := out.world }, false)
    | some err =>
      let w1 := out.world.logf (LogMsg.errorAfterRetries err)
      let w2 := w1.emit (Event.cancel st.ctx)
      match createChromeContext w2 with
      | (ctx1, w3) => ({ ctx := ctx1, prevRate := out.prevRate, config := out.config, world := w3 }, false)
  | Select.restart =>
    let w1 := st.world.logf LogMsg.restarting
    let w2 := w1.emit (Event.cancel st.ctx)
    ({ st with world := killAllChromeInstances w2 }, true)
  | Select.signal =>
    let w1 := st.world.logf LogMsg.interrupt
    let w2 := w1.emit (Event.cancel st.ctx)
    ({ st with world := killAllChromeInstances w2 }, true)
  | Select.ctxDone => (st, true)
  | Select.idle => ({ st with world := st.world.emit (Event.sleep 100) }, false)

/-- The `for { select { ... } }` of Go `startProgram` along a finite run of
rounds; the flag is `false` when the loop is still running after them. -/
def startProgramLoop (ParseFloat : String → Option Float64) : List Select → LoopState → LoopState × Bool
  | [], st => (st, false)
  | sel :: rest, st =>
    match loopStep ParseFloat sel st with
    | (st1, true) => (st1, true)
    | (st1, false) => startProgramLoop ParseFloat rest st1

/-- The state in which Go `startProgram` enters its loop, after the Chrome
context is made and the initial fetch is done. -/
def startProgramInit (ParseFloat : String → Option Float64) (config : Config) (w : World) :
    LoopState :=
  let prevRate := Float64.zero
  match createChromeContext w with
  | (ctx, w1) =>
    let out := fetchAndPrintLabelWithRetry ParseFloat ctx prevRate config w1
    match out.err with
    | none => { ctx := ctx, prevRate := out.prevRate, config := out.config, world := out.world }
    | some err =>
      { ctx := ctx, prevRate := out.prevRate, config := out.config,
        world := out.world.logf (LogMsg.initialFetchError err) }

/-- Go `startProgram` (main.go) along the given rounds of its `select`: the
package-level `config` and the world it leaves, and whether it returned.
`none` when setupUserPreferences never returns.  The deferred `cancel()` is
the cancel function of the first context, the value of `cancel` when the
`defer` statement ran. -/
def startProgram (ParseFloat : String → Option Float64) (rounds : List Select) (config : Config)
    (w : World) : Option (Config × World × Bool) :=
  match setupUserPreferences ParseFloat config w with
  | none => none
  | some (config1, w1) =>
    let st0 := startProgramInit ParseFloat config1 w1
    match startProgramLoop ParseFloat rounds st0 with
    | (st, true) => some (st.config, st.world.emit (Event.cancel st0.ctx), true)
    | (st, false) => some (st.config, st.world, false)

/-! ## Concrete inputs -/

/-- The joined groups of the example: "Family" with identifier 123 and "Work"
with identifier 456. -/
def exampleGroups : List GroupInfo :=
  [{ Name := "Family", JID := NewJID "123" GroupServer },
   { Name := "Work", JID := NewJID "456" GroupServer }]

/-- The configuration of the examples: bounds 2.50 and 3.00, a connected
client, a personal target, and `LastNotifiedRate` at its initial zero value. -/
def exampleConfig : Config :=
  { Connected := true, DesiredMinRate := Float64.ofDecimal 250 2,
    DesiredMaxRate := Float64.ofDecimal 300 2, NotifyTarget := "60123456789",
    IsGroup := false, LastNotifiedRate := Float64.zero }

/-- A world at program start in which the fetches return the given labels
in order and fail afterwards, no context is ever done, every send succeeds,
the joined groups are those of the example and Chrome starts with process 4242. -/
def exampleWorld (labels : List String) : World :=
  { fetchResult := fun n => match labels.get? n with
      | some label => Except.ok label
      | none => Except.error "timeout",
    fetches := 0, ctxDone := fun _ => false, selects := 0, sendOk := fun _ => true, sends := 0,
    joinedGroups := fun _ => Except.ok exampleGroups, groupCalls := 0,
    chromeStart := fun _ => ChromeStart.found [4242], contextsCreated := 0,
    killOk := fun _ => true, selfJID := NewJID "6500000000" DefaultUserServer, stdin := [],
    chromeContexts := [], chromeProcesses := [], trace := [] }

/-- In the words of the specification: the name, the trimmed identifier or
the full identifier of the group contains the input as a substring. -/
def MatchesGroup (input : String) (group : GroupInfo) : Prop :=
  input.data <:+: group.Name.data ∨
  input.data <:+: (TrimSuffix group.JID.String "@g.us").data ∨
  input.data <:+: group.JID.String.data

/-! ## Reading traces -/

/-- The actions made on the messaging side after the entry into
sendWhatsAppNotification: group listing, sends, waits and logger lines. -/
def Event.isSendSide : Event → Bool
  | Event.getJoinedGroups => true
  | Event.sendMessage _ _ => true
  | Event.sendFallback _ _ => true
  | Event.sleep _ => true
  | Event.log _ => true
  | _ => false

/-- An entry into sendWhatsAppNotification. -/
def Event.isNotify : Event → Bool
  | Event.notify _ => true
  | _ => false

/-- A send to the recipient. -/
def Event.isSend : Event → Bool
  | Event.sendMessage _ _ => true
  | _ => false

/-- A fallback send to the own identity. -/
def Event.isFallback : Event → Bool
  | Event.sendFallback _ _ => true
  | _ => false

/-- An action on the Chrome session: cancelling a context, creating one,
killing a process. -/
def Event.isSession : Event → Bool
  | Event.cancel _ => true
  | Event.createChromeContext _ => true
  | Event.kill _ => true
  | _ => false

/-- The actions recorded in `w2` after those of `w1`. -/
def World.since (w1 w2 : World) : List Event := w2.trace.drop w1.trace.length

/-- `w2` is `w1` after some actions that all satisfy `P` and that leave the
Chrome session, its registries and the standard input alone; the answers of
the outside world are the same. -/
structure Step (P : Event → Bool) (w1 w2 : World) : Prop where
  fetchResult : w2.fetchResult = w1.fetchResult
  ctxDone : w2.ctxDone = w1.ctxDone
  sendOk : w2.sendOk = w1.sendOk
  joinedGroups : w2.joinedGroups = w1.joinedGroups
  chromeStart : w2.chromeStart = w1.chromeStart
  killOk : w2.killOk = w1.killOk
  selfJID : w2.selfJID = w1.selfJID
  contextsCreated : w2.contextsCreated = w1.contextsCreated
  chromeContexts : w2.chromeContexts = w1.chromeContexts
  chromeProcesses : w2.chromeProcesses = w1.chromeProcesses
  stdin : w2.stdin = w1.stdin
  trace : ∃ l, w2.trace = w1.trace ++ l ∧ ∀ e ∈ l, P e = true

/-- The recipient that sendWhatsAppNotification resolves for a configuration,
when it resolves one: the personal identifier, or the group found by
matchGroupID in the current list of joined groups. -/
def resolvedRecipient (config : Config) (w : World) : Option JID :=
  if config.IsGroup then
    match w.joinedGroups w.groupCalls with
    | Except.error _ => none
    | Except.ok groups =>
      match matchGroupLoop config.NotifyTarget groups with
      | Except.error _ => none
      | Except.ok id => some (NewJID (TrimSuffix id "@g.us") GroupServer)
  else some (NewJID config.NotifyTarget DefaultUserServer)

/-- Any action that is not an action on the Chrome session. -/
def Event.isSampling (e : Event) : Bool := !e.isSession

/-- Number of entries into sendWhatsAppNotification recorded in a trace. -/
def notifyCount (tr : List Event) : Nat := tr.countP Event.isNotify

/-- Successive calls of fetchAndPrintLabel, one per sample, each on the
state the previous one left; with, for each call, whether it entered
sendWhatsAppNotification. -/
def processSamples (ParseFloat : String → Option Float64) (ctx : Nat) :
    Nat → Float64 → Config → World → List Bool × FetchOut
  | 0, prevRate, config, w => ([], { err := none, prevRate := prevRate, config := config, world := w })
  | n + 1, prevRate, config, w =>
    let out := fetchAndPrintLabel ParseFloat ctx prevRate config w
    let notified := decide (notifyCount w.trace < notifyCount out.world.trace)
    let rest := processSamples ParseFloat ctx n out.prevRate out.config out.world
    (notified :: rest.1, rest.2)

/-- The example configuration with the group target "123". -/
def exampleGroupConfig : Config := { exampleConfig with NotifyTarget := "123", IsGroup := true }

/-- The example world with a client whose sends all fail. -/
def failingSendWorld : World := { exampleWorld [] with sendOk := fun _ => false }

/-- The outcome of the fetch-and-parse part of fetchAndPrintLabel (lines 148
to 161) for a given answer of the browser: the error it returns, or the
current rate. -/
def sampleOf (ParseFloat : String → Option Float64) (answer : Except String String) :
    Except GoError Float64 :=
  match answer with
  | Except.error e => Except.error (GoError.fetchingLabel (GoError.chromedp e))
  | Except.ok labelContent => parseRate ParseFloat labelContent

/-- The example configuration with a client that is not connected. -/
def disconnectedConfig : Config := { exampleConfig with Connected := false }

/-- The example configuration with a group target that no joined group matches. -/
def unmatchedGroupConfig : Config := { exampleConfig with NotifyTarget := "Friends", IsGroup := true }

/-- The world after a failed attempt of the retry loop whose wait is not cut
short by the context: one fetch, one logger line, one wait of the delay. -/
def World.afterFailedAttempt (w : World) (ctx attempt : Nat) (err : GoError) (retryDelayMs : Nat) :
    World :=
  { w with fetches := w.fetches + 1, selects := w.selects + 1,
           trace := w.trace ++ [Event.fetch ctx,
             Event.log (LogMsg.fetchAttemptFailed attempt err), Event.sleep retryDelayMs] }

/-- The world after the three failed attempts of an exhausted call of
fetchAndPrintLabelWithRetry on a context that is not done. -/
def World.afterExhaustion (w : World) (ctx : Nat) (e0 e1 e2 : GoError) : World :=
  ((w.afterFailedAttempt ctx 1 e0 5000).afterFailedAttempt ctx 2 e1 5000).afterFailedAttempt ctx 3
    e2 5000

/-- The example world at the start of the program: the lines typed for the
minimum rate, the maximum rate and the target, and a browser whose fetches
all fail. -/
def startWorld : World := { exampleWorld [] with stdin := ["2.50", "3.00", "60123456789"] }

/-- The example world with a browser whose fetches all fail. -/
def failingFetchWorld : World := exampleWorld []

/-- The configuration when the main menu is first shown: the zero value of
`config` with `Connected` set by setupWhatsAppClient. -/
def connectedConfig : Config := { Config.zero with Connected := true }

/-- The example world for two runs of startProgram: the browser answers 3.00
to the first two fetches, and the lines typed for the minimum rate, the
maximum rate and the target of each run are 2.50, 3.00 and a phone number. -/
def twoRunWorld : World :=
  { exampleWorld ["SGD 1.00 = MYR 3.00", "SGD 1.00 = MYR 3.00"] with
    stdin := ["2.50", "3.00", "60123456789", "2.50", "3.00", "60123456789"] }

/-- Choice "2" of the menu loop of Go `main` taken twice: startProgram is
entered again, on the same package-level `config`, once the first call has
returned.  `none` when the first call does not return along its rounds. -/
def startProgramTwice (ParseFloat : String → Option Float64) (rounds1 rounds2 : List Select)
    (config : Config) (w : World) : Option (Config × World × Bool) :=
  match startProgram ParseFloat rounds1 config w with
  | some (config1, w1, true) => startProgram ParseFloat rounds2 config1 w1
  | _ => none

/-- The cancel calls recorded in a trace, by context. -/
def cancelsIn (tr : List Event) : List Nat :=
  tr.filterMap (fun e => match e with
    | Event.cancel ctx => some ctx
    | _ => none)

/-- Number of runs of killAllChromeInstances recorded in a trace. -/
def killAllCount (tr : List Event) : Nat := tr.count (Event.log LogMsg.killAllBegin)

/-- The actions of the process loop of killAllChromeInstances on the given
processes: for each, the logger line, the kill, and the error line when the
kill fails. -/
def killTrace (killOk : Nat → Bool) : List Nat → List Event
  | [] => []
  | pid :: rest =>
    (if killOk pid then [Event.log (LogMsg.killing pid), Event.kill pid]
     else [Event.log (LogMsg.killing pid), Event.kill pid, Event.log (LogMsg.errorKilling pid)]) ++
      killTrace killOk rest

/-- The example configuration of a run entered with 3.00 as the rate last notified. -/
def notifiedConfig : Config := { exampleConfig with LastNotifiedRate := Float64.ofDecimal 300 2 }

/-- The world that setupUserPreferences leaves from `startWorld`: the three
lines are read and the personal target is logged. -/
def afterSetupWorld : World :=
  { startWorld with
    stdin := []
    trace := [Event.log (LogMsg.targetPersonal "60123456789")] }

/-- The example world with a browser whose fetches all fail and a context
that is found done by the first wait of the retry loop, and by no later one. -/
def cutShortWorld : World := { exampleWorld [] with ctxDone := fun n => decide (n = 0) }

/-! ## Facts about the model of float64 and strings -/

theorem Float64.le_fin (a b : ℚ) : Float64.le (Float64.fin a) (Float64.fin b) = true ↔ a ≤ b := by
  simp [Float64.le]

theorem Float64.ne_fin (a b : ℚ) : Float64.ne (Float64.fin a) (Float64.fin b) = true ↔ a ≠ b := by
  simp [Float64.ne, Float64.eq]

theorem Float64.le_nan_left (b : Float64) : Float64.le Float64.nan b = false := by
  cases b <;> rfl

theorem Float64.le_nan_right (a : Float64) : Float64.le a Float64.nan = false := by
  cases a <;> rfl

/-- A value that compares `<=` with something is equal to itself (it is not NaN). -/
theorem Float64.eq_self_of_le {a b : Float64} (h : Float64.le a b = true) : Float64.eq a a = true := by
  cases a <;> cases b <;> simp_all [Float64.le, Float64.eq]

theorem Float64.eq_self_of_ge {a b : Float64} (h : Float64.ge a b = true) : Float64.eq a a = true := by
  cases a <;> cases b <;> simp_all [Float64.ge, Float64.le, Float64.eq]

theorem HasPrefix_append (pre rest : String) : HasPrefix (pre ++ rest) pre = true := by
  simp [HasPrefix, String.data_append]

theorem TrimPrefix_append (pre rest : String) : TrimPrefix (pre ++ rest) pre = rest := by
  simp [TrimPrefix, HasPrefix_append, String.data_append]

theorem TrimPrefix_of_not_HasPrefix (s pre : String) (h : HasPrefix s pre = false) :
    TrimPrefix s pre = s := by
  simp [TrimPrefix, h]

theorem HasPrefix_iff (s pre : String) : HasPrefix s pre = true ↔ ∃ rest : String, s = pre ++ rest := by
  unfold HasPrefix
  rw [List.isPrefixOf_iff_prefix]
  constructor
  · rintro ⟨t, ht⟩
    exact ⟨String.mk t, by apply String.ext; simp [String.data_append, ht]⟩
  · rintro ⟨rest, rfl⟩
    exact ⟨rest.data, by simp [String.data_append]⟩

theorem containsChars_iff (s sub : List Char) : containsChars s sub = true ↔ sub <:+: s := by
  induction s with
  | nil =>
    simp only [containsChars, List.isPrefixOf_iff_prefix]
    constructor
    · intro h; exact h.isInfix
    · intro h
      have : sub = [] := List.eq_nil_of_infix_nil h
      subst this; exact List.prefix_refl _
  | cons c s ih =>
    simp only [containsChars, Bool.or_eq_true, List.isPrefixOf_iff_prefix, ih]
    rw [List.infix_cons_iff]

/-- Go `strings.Contains` holds exactly when the needle is a contiguous part of the text. -/
theorem Contains_iff (s sub : String) : Contains s sub = true ↔ sub.data <:+: s.data :=
  containsChars_iff _ _

/-! ## Steps of the world -/

theorem World.since_of_trace {w1 w2 : World} {l : List Event} (h : w2.trace = w1.trace ++ l) :
    w1.since w2 = l := by
  simp [World.since, h]

theorem Step.refl (P : Event → Bool) (w : World) : Step P w w :=
  ⟨rfl, rfl, rfl, rfl, rfl, rfl, rfl, rfl, rfl, rfl, rfl, ⟨[], by simp, by simp⟩⟩

theorem Step.trans {P : Event → Bool} {w1 w2 w3 : World} (h1 : Step P w1 w2) (h2 : Step P w2 w3) :
    Step P w1 w3 := by
  obtain ⟨l1, hl1, hp1⟩ := h1.trace
  obtain ⟨l2, hl2, hp2⟩ := h2.trace
  refine ⟨h2.fetchResult.trans h1.fetchResult, h2.ctxDone.trans h1.ctxDone,
    h2.sendOk.trans h1.sendOk, h2.joinedGroups.trans h1.joinedGroups,
    h2.chromeStart.trans h1.chromeStart, h2.killOk.trans h1.killOk, h2.selfJID.trans h1.selfJID,
    h2.contextsCreated.trans h1.contextsCreated, h2.chromeContexts.trans h1.chromeContexts,
    h2.chromeProcesses.trans h1.chromeProcesses, h2.stdin.trans h1.stdin, ⟨l1 ++ l2, ?_, ?_⟩⟩
  · rw [hl2, hl1, List.append_assoc]
  · intro e he
    rcases List.mem_append.mp he with h | h
    · exact hp1 e h
    · exact hp2 e h

theorem Step.mono {P Q : Event → Bool} {w1 w2 : World} (hPQ : ∀ e, P e = true → Q e = true)
    (h : Step P w1 w2) : Step Q w1 w2 := by
  obtain ⟨l, hl, hp⟩ := h.trace
  exact ⟨h.fetchResult, h.ctxDone, h.sendOk, h.joinedGroups, h.chromeStart, h.killOk, h.selfJID,
    h.contextsCreated, h.chromeContexts, h.chromeProcesses, h.stdin, ⟨l, hl, fun e he => hPQ e (hp e he)⟩⟩

theorem Step.emit {P : Event → Bool} (w : World) (e : Event) (he : P e = true) :
    Step P w (w.emit e) :=
  ⟨rfl, rfl, rfl, rfl, rfl, rfl, rfl, rfl, rfl, rfl, rfl, ⟨[e], rfl, by simpa using he⟩⟩

theorem Step.logf {P : Event → Bool} (w : World) (m : LogMsg) (he : P (Event.log m) = true) :
    Step P w (w.logf m) :=
  Step.emit w (Event.log m) he

theorem Step.SendMessage {P : Event → Bool} (w : World) (recipient : JID) (rate : Float64)
    (he : P (Event.sendMessage recipient rate) = true) :
    Step P w (w.SendMessage recipient rate).2 :=
  ⟨rfl, rfl, rfl, rfl, rfl, rfl, rfl, rfl, rfl, rfl, rfl, ⟨[Event.sendMessage recipient rate], rfl, by simpa using he⟩⟩

theorem Step.SendFallback {P : Event → Bool} (w : World) (rate : Float64)
    (he : P (Event.sendFallback w.selfJID rate) = true) :
    Step P w (w.SendFallback rate).2 :=
  ⟨rfl, rfl, rfl, rfl, rfl, rfl, rfl, rfl, rfl, rfl, rfl, ⟨[Event.sendFallback w.selfJID rate], rfl, by simpa using he⟩⟩

theorem Step.GetJoinedGroups {P : Event → Bool} (w : World) (he : P Event.getJoinedGroups = true) :
    Step P w w.GetJoinedGroups.2 :=
  ⟨rfl, rfl, rfl, rfl, rfl, rfl, rfl, rfl, rfl, rfl, rfl, ⟨[Event.getJoinedGroups], rfl, by simpa using he⟩⟩

theorem Step.runFetch {P : Event → Bool} (w : World) (ctx : Nat) (he : P (Event.fetch ctx) = true) :
    Step P w (w.runFetch ctx).2 :=
  ⟨rfl, rfl, rfl, rfl, rfl, rfl, rfl, rfl, rfl, rfl, rfl, ⟨[Event.fetch ctx], rfl, by simpa using he⟩⟩

theorem Step.selectDone {P : Event → Bool} (w : World) (ms : Nat) (he : P (Event.sleep ms) = true) :
    Step P w (w.selectDone ms).2 := by
  unfold World.selectDone
  split
  · exact ⟨rfl, rfl, rfl, rfl, rfl, rfl, rfl, rfl, rfl, rfl, rfl, ⟨[], by simp, by simp⟩⟩
  · exact ⟨rfl, rfl, rfl, rfl, rfl, rfl, rfl, rfl, rfl, rfl, rfl, ⟨[Event.sleep ms], rfl, by simpa using he⟩⟩

/-- The filter of a trace by a test that the new actions all fail is unchanged. -/
theorem Step.filter_eq {P : Event → Bool} {w1 w2 : World} (h : Step P w1 w2) (Q : Event → Bool)
    (hPQ : ∀ e, P e = true → Q e = false) : w2.trace.filter Q = w1.trace.filter Q := by
  obtain ⟨l, hl, hp⟩ := h.trace
  rw [hl, List.filter_append]
  have : l.filter Q = [] := by
    rw [List.filter_eq_nil_iff]
    intro e he
    simp [hPQ e (hp e he)]
  rw [this, List.append_nil]

/-! ## Steps of the messaging side -/

theorem matchGroupID_step (inviteLinkID : String) (w : World) :
    Step Event.isSendSide w (matchGroupID inviteLinkID w).2 ∧
    (matchGroupID inviteLinkID w).2.fetches = w.fetches ∧
    (matchGroupID inviteLinkID w).2.selects = w.selects := by
  have h := Step.GetJoinedGroups (P := Event.isSendSide) w rfl
  unfold matchGroupID
  split
  · next err w1 heq =>
    have : w1 = w.GetJoinedGroups.2 := by rw [heq]
    subst this
    exact ⟨h, rfl, rfl⟩
  · next groups w1 heq =>
    have : w1 = w.GetJoinedGroups.2 := by rw [heq]
    subst this
    exact ⟨h, rfl, rfl⟩

theorem sendLoop_step (recipient : JID) (rate : Float64) (retryDelayMs : Nat) (remaining : Nat) :
    ∀ (attempt : Nat) (w : World),
      Step Event.isSendSide w (sendLoop recipient rate retryDelayMs remaining attempt w).2 ∧
      (sendLoop recipient rate retryDelayMs remaining attempt w).2.fetches = w.fetches ∧
      (sendLoop recipient rate retryDelayMs remaining attempt w).2.selects = w.selects := by
  induction remaining with
  | zero => intro attempt w; exact ⟨Step.refl _ _, rfl, rfl⟩
  | succ n ih =>
    intro attempt w
    have h1 := Step.SendMessage (P := Event.isSendSide) w recipient rate rfl
    simp only [sendLoop]
    cases hs : w.sendOk w.sends
    · have hw : w.SendMessage recipient rate = (false, (w.SendMessage recipient rate).2) := by
        simp [World.SendMessage, hs]
      rw [hw]
      simp only
      obtain ⟨i1, i2, i3⟩ := ih (attempt + 1)
        (((w.SendMessage recipient rate).2.logf (LogMsg.sendAttemptFailed (attempt + 1))).emit
          (Event.sleep retryDelayMs))
      refine ⟨(h1.trans ((Step.logf _ (LogMsg.sendAttemptFailed (attempt + 1)) rfl).trans
        (Step.emit _ (Event.sleep retryDelayMs) rfl))).trans i1, ?_, ?_⟩
      · rw [i2]; rfl
      · rw [i3]; rfl
    · have hw : w.SendMessage recipient rate = (true, (w.SendMessage recipient rate).2) := by
        simp [World.SendMessage, hs]
      rw [hw]
      exact ⟨h1.trans (Step.logf _ _ rfl), rfl, rfl⟩

theorem sendToRecipient_step (config : Config) (rate : Float64) (recipient : JID) (w : World) :
    Step Event.isSendSide w (sendToRecipient config rate recipient w) ∧
    (sendToRecipient config rate recipient w).fetches = w.fetches ∧
    (sendToRecipient config rate recipient w).selects = w.selects := by
  obtain ⟨h1, h2, h3⟩ := sendLoop_step recipient rate 5000 3 0 w
  unfold sendToRecipient
  simp only
  generalize sendLoop recipient rate 5000 3 0 w = r at h1 h2 h3
  obtain ⟨b, w1⟩ := r
  cases b
  · simp only
    have h4 := h1.trans (Step.logf (P := Event.isSendSide) w1 (LogMsg.sendFailedAfter 3) rfl)
    split
    · have h5 := Step.SendFallback (P := Event.isSendSide) (w1.logf (LogMsg.sendFailedAfter 3)) rate rfl
      cases hs : (w1.logf (LogMsg.sendFailedAfter 3)).sendOk (w1.logf (LogMsg.sendFailedAfter 3)).sends
      · have hw : (w1.logf (LogMsg.sendFailedAfter 3)).SendFallback rate =
            (false, ((w1.logf (LogMsg.sendFailedAfter 3)).SendFallback rate).2) := by
          simp [World.SendFallback, hs]
        rw [hw]
        exact ⟨(h4.trans h5).trans (Step.logf _ _ rfl), h2, h3⟩
      · have hw : (w1.logf (LogMsg.sendFailedAfter 3)).SendFallback rate =
            (true, ((w1.logf (LogMsg.sendFailedAfter 3)).SendFallback rate).2) := by
          simp [World.SendFallback, hs]
        rw [hw]
        exact ⟨(h4.trans h5).trans (Step.logf _ _ rfl), h2, h3⟩
    · exact ⟨h4, h2, h3⟩
  · exact ⟨h1, h2, h3⟩

theorem sendWhatsAppNotification_step (config : Config) (rate : Float64) (w : World) :
    Step Event.isSendSide (w.emit (Event.notify rate)) (sendWhatsAppNotification config rate w) ∧
    (sendWhatsAppNotification config rate w).fetches = w.fetches ∧
    (sendWhatsAppNotification config rate w).selects = w.selects := by
  unfold sendWhatsAppNotification
  simp only
  split
  · exact ⟨Step.logf _ _ rfl, rfl, rfl⟩
  · split
    · obtain ⟨h1, h2, h3⟩ := matchGroupID_step config.NotifyTarget (w.emit (Event.notify rate))
      generalize matchGroupID config.NotifyTarget (w.emit (Event.notify rate)) = r at h1 h2 h3
      obtain ⟨res, w1⟩ := r
      cases res with
      | error err => exact ⟨h1.trans (Step.logf _ _ rfl), h2, h3⟩
      | ok id =>
        obtain ⟨i1, i2, i3⟩ := sendToRecipient_step config rate (NewJID (TrimSuffix id "@g.us") GroupServer) w1
        exact ⟨h1.trans i1, i2.trans h2, i3.trans h3⟩
    · exact sendToRecipient_step config rate _ _

/-! ## C1: the notification gate -/

/-- C1. For every current rate and every configuration (with min < max or not),
shouldNotify returns true exactly when (current <= min or current >= max) and
current != lastNotifiedRate, the comparisons being those of Go on float64; on
finite values this is the same statement about the numbers; and the result is
the same for any two configurations that agree on DesiredMinRate,
DesiredMaxRate and LastNotifiedRate (no other field is read; the function
returns a boolean only and so changes nothing). -/
theorem shouldNotify_spec (currentRate : Float64) (config : Config) :
    (shouldNotify currentRate config = true ↔
      (Float64.le currentRate config.DesiredMinRate = true ∨
        Float64.ge currentRate config.DesiredMaxRate = true) ∧
        Float64.ne currentRate config.LastNotifiedRate = true) ∧
    (∀ c lo hi last : ℚ, currentRate = Float64.fin c → config.DesiredMinRate = Float64.fin lo →
      config.DesiredMaxRate = Float64.fin hi → config.LastNotifiedRate = Float64.fin last →
      (shouldNotify currentRate config = true ↔ (c ≤ lo ∨ hi ≤ c) ∧ c ≠ last)) ∧
    (∀ other : Config, other.DesiredMinRate = config.DesiredMinRate →
      other.DesiredMaxRate = config.DesiredMaxRate →
      other.LastNotifiedRate = config.LastNotifiedRate →
      shouldNotify currentRate other = shouldNotify currentRate config) := by
  refine ⟨?_, ?_, ?_⟩
  · simp [shouldNotify]
  · intro c lo hi last hc hlo hhi hlast
    simp [shouldNotify, hc, hlo, hhi, hlast, Float64.ge, Float64.le, Float64.ne, Float64.eq]
  · intro other h1 h2 h3
    simp [shouldNotify, h1, h2, h3]

/-- Witness of C1 at the rate 3.00 with bounds 2.50 and 3.00. -/
theorem shouldNotify_spec_witness :
    Float64.lt exampleConfig.DesiredMinRate exampleConfig.DesiredMaxRate = true ∧
    (shouldNotify (Float64.ofDecimal 300 2) exampleConfig = true ↔
      (Float64.le (Float64.ofDecimal 300 2) exampleConfig.DesiredMinRate = true ∨
        Float64.ge (Float64.ofDecimal 300 2) exampleConfig.DesiredMaxRate = true) ∧
        Float64.ne (Float64.ofDecimal 300 2) exampleConfig.LastNotifiedRate = true) :=
  ⟨by decide, (shouldNotify_spec (Float64.ofDecimal 300 2) exampleConfig).1⟩

/-! ## C4: parseRate -/

/-- C4, counterexample. A bare number with no prefix is not rejected: with
the decimal model of ParseFloat, parseRate("3.1234") succeeds with 3.1234
although the label does not start with "SGD 1.00 = MYR ". -/
theorem parseRate_bare_number_accepted :
    HasPrefix "3.1234" rateLabelLead = false ∧
    parseRate parseFloatDecimal "3.1234" = Except.ok (Float64.ofDecimal 31234 4) := by
  decide

/-- C4, amended. For every ParseFloat and label, parseRate succeeds with v
exactly when ParseFloat succeeds with v on the label with the prefix
"SGD 1.00 = MYR " removed if the label starts with it, and on the unchanged
label otherwise; so a label made of the prefix and a rest gives what
ParseFloat gives on the rest, a label without the prefix gives what
ParseFloat gives on the whole label, and every failure is a parse error
wrapping the number error.  With the decimal ParseFloat,
parseRate("SGD 1.00 = MYR 3.1234") = 3.1234 and parseRate("MYR abc") is a
parse error. -/
theorem parseRate_spec (ParseFloat : String → Option Float64) (labelContent : String) :
    (∀ v, parseRate ParseFloat labelContent = Except.ok v ↔
      ParseFloat (TrimPrefix labelContent rateLabelLead) = some v) ∧
    (∀ rest : String, labelContent = rateLabelLead ++ rest →
      ∀ v, parseRate ParseFloat labelContent = Except.ok v ↔ ParseFloat rest = some v) ∧
    (HasPrefix labelContent rateLabelLead = false →
      ∀ v, parseRate ParseFloat labelContent = Except.ok v ↔ ParseFloat labelContent = some v) ∧
    (∀ err, parseRate ParseFloat labelContent = Except.error err →
      ParseFloat (TrimPrefix labelContent rateLabelLead) = none ∧
      err = GoError.parsingRate (GoError.numError (TrimPrefix labelContent rateLabelLead))) ∧
    parseRate parseFloatDecimal "SGD 1.00 = MYR 3.1234" = Except.ok (Float64.ofDecimal 31234 4) ∧
    parseRate parseFloatDecimal "MYR abc" =
      Except.error (GoError.parsingRate (GoError.numError "MYR abc")) := by
  have key : ∀ v, parseRate ParseFloat labelContent = Except.ok v ↔
      ParseFloat (TrimPrefix labelContent rateLabelLead) = some v := by
    intro v
    simp only [parseRate]
    cases h : ParseFloat (TrimPrefix labelContent rateLabelLead) <;> simp
  refine ⟨key, ?_, ?_, ?_, by decide, by decide⟩
  · rintro rest rfl v
    rw [key, TrimPrefix_append]
  · intro h v
    rw [key, TrimPrefix_of_not_HasPrefix _ _ h]
  · intro err
    simp only [parseRate]
    cases h : ParseFloat (TrimPrefix labelContent rateLabelLead) <;> simp
    intro h2; exact h2.symm

/-! ## C10: isGroupIdentifier -/

/-- The test of the loop body of isGroupIdentifier, in words. -/
theorem isGroupIdentifierRunes_iff (cs : List Char) :
    isGroupIdentifierRunes cs = true ↔
      ∃ c ∈ cs, ¬ (('0' ≤ c ∧ c ≤ '9') ∨ c = '-' ∨ c = '_') := by
  induction cs with
  | nil => simp [isGroupIdentifierRunes]
  | cons c cs ih =>
    simp only [isGroupIdentifierRunes, List.mem_cons, exists_eq_or_imp]
    by_cases h : ((decide (c < '0') || decide (c > '9')) && c != '-' && c != '_') = true
    · rw [if_pos h]
      simp only [true_iff]
      left
      simp only [Bool.and_eq_true, Bool.or_eq_true, decide_eq_true_eq, bne_iff_ne] at h
      rintro (⟨h1, h2⟩ | h1 | h1)
      · rcases h.1.1 with h3 | h3
        · exact absurd h1 (not_le.mpr h3)
        · exact absurd h2 (not_le.mpr h3)
      · exact h.1.2 h1
      · exact h.2 h1
    · rw [if_neg h, ih]
      simp only [Bool.and_eq_true, Bool.or_eq_true, decide_eq_true_eq, bne_iff_ne] at h
      constructor
      · intro h1; exact Or.inr h1
      · rintro (h1 | h1)
        · exfalso
          apply h
          refine ⟨⟨?_, fun h2 => h1 (Or.inr (Or.inl h2))⟩, fun h2 => h1 (Or.inr (Or.inr h2))⟩
          by_contra h3
          push_neg at h3
          exact h1 (Or.inl ⟨h3.1, h3.2⟩)
        · exact h1

/-- C10. For every target string s, isGroupIdentifier(s) is true exactly when
s contains a character other than the digits 0-9, '-' and '_'; it is false
for the empty string and for "999"; and setupUserPreferences treats a target
for which it is false as a personal identifier: IsGroup is false,
NotifyTarget is the trimmed input line, and no group lookup is made. -/
theorem isGroupIdentifier_spec (s : String) :
    (isGroupIdentifier s = true ↔
      ∃ c ∈ s.data, ¬ (('0' ≤ c ∧ c ≤ '9') ∨ c = '-' ∨ c = '_')) ∧
    isGroupIdentifier "" = false ∧ isGroupIdentifier "999" = false ∧
    (∀ (config : Config) (w : World) (rest : List String), w.stdin = s :: rest →
      isGroupIdentifier (TrimSpace s) = false →
      (setupTarget config w).1.IsGroup = false ∧
      (setupTarget config w).1.NotifyTarget = TrimSpace s ∧
      (setupTarget config w).2.groupCalls = w.groupCalls) := by
  refine ⟨isGroupIdentifierRunes_iff s.data, by decide, by decide, ?_⟩
  intro config w rest hin hs
  simp [setupTarget, World.scanLine, hin, hs, World.logf, World.emit]

/-- Witness of C10 on the input line "999". -/
theorem isGroupIdentifier_spec_witness :
    isGroupIdentifier "999" = false ∧
    (setupTarget exampleConfig { exampleWorld [] with stdin := ["999"] }).1.IsGroup = false ∧
    (setupTarget exampleConfig { exampleWorld [] with stdin := ["999"] }).1.NotifyTarget = "999" :=
  ⟨(isGroupIdentifier_spec "999").2.2.1,
   ((isGroupIdentifier_spec "999").2.2.2 exampleConfig { exampleWorld [] with stdin := ["999"] } []
      rfl (by decide)).1,
   ((isGroupIdentifier_spec "999").2.2.2 exampleConfig { exampleWorld [] with stdin := ["999"] } []
      rfl (by decide)).2.1⟩

/-! ## C9: group resolution -/

theorem matchGroupLoop_cons (inviteLinkID : String) (group : GroupInfo) (rest : List GroupInfo) :
    matchGroupLoop inviteLinkID (group :: rest) =
      if Contains group.Name inviteLinkID || Contains (TrimSuffix group.JID.String "@g.us") inviteLinkID ||
          Contains group.JID.String inviteLinkID then
        Except.ok (TrimSuffix group.JID.String "@g.us")
      else matchGroupLoop inviteLinkID rest := rfl

theorem matchTest_iff (inviteLinkID : String) (group : GroupInfo) :
    (Contains group.Name inviteLinkID || Contains (TrimSuffix group.JID.String "@g.us") inviteLinkID ||
      Contains group.JID.String inviteLinkID) = true ↔ MatchesGroup inviteLinkID group := by
  simp only [Bool.or_eq_true, Contains_iff, MatchesGroup, or_assoc]

theorem matchGroupLoop_ok_iff (inviteLinkID : String) (groups : List GroupInfo) (id : String) :
    matchGroupLoop inviteLinkID groups = Except.ok id ↔
      ∃ before group after, groups = before ++ group :: after ∧
        (∀ g ∈ before, ¬ MatchesGroup inviteLinkID g) ∧ MatchesGroup inviteLinkID group ∧
        id = TrimSuffix group.JID.String "@g.us" := by
  induction groups with
  | nil => simp [matchGroupLoop]
  | cons g rest ih =>
    rw [matchGroupLoop_cons]
    by_cases h : MatchesGroup inviteLinkID g
    · rw [if_pos ((matchTest_iff _ _).mpr h)]
      constructor
      · intro h1
        refine ⟨[], g, rest, rfl, by simp, h, ?_⟩
        simpa using h1.symm
      · rintro ⟨before, group, after, heq, hbefore, _, hid⟩
        cases before with
        | nil =>
          simp only [List.nil_append, List.cons.injEq] at heq
          rw [hid, heq.1]
        | cons b before =>
          simp only [List.cons_append, List.cons.injEq] at heq
          exact absurd (heq.1 ▸ h) (hbefore b (List.mem_cons_self _ _))
    · rw [if_neg (fun h1 => h ((matchTest_iff _ _).mp h1)), ih]
      constructor
      · rintro ⟨before, group, after, heq, hbefore, hm, hid⟩
        refine ⟨g :: before, group, after, by simp [heq], ?_, hm, hid⟩
        intro x hx
        rcases List.mem_cons.mp hx with rfl | hx
        · exact h
        · exact hbefore x hx
      · rintro ⟨before, group, after, heq, hbefore, hm, hid⟩
        cases before with
        | nil =>
          simp only [List.nil_append, List.cons.injEq] at heq
          exact absurd (heq.1 ▸ hm) h
        | cons b before =>
          simp only [List.cons_append, List.cons.injEq] at heq
          exact ⟨before, group, after, heq.2, fun x hx => hbefore x (List.mem_cons_of_mem _ hx), hm, hid⟩

theorem matchGroupLoop_error_iff (inviteLinkID : String) (groups : List GroupInfo) :
    (∃ err, matchGroupLoop inviteLinkID groups = Except.error err) ↔
      ∀ g ∈ groups, ¬ MatchesGroup inviteLinkID g := by
  induction groups with
  | nil => simp [matchGroupLoop]
  | cons g rest ih =>
    rw [matchGroupLoop_cons]
    by_cases h : MatchesGroup inviteLinkID g
    · rw [if_pos ((matchTest_iff _ _).mpr h)]
      simp only [List.mem_cons, forall_eq_or_imp]
      constructor
      · rintro ⟨err, herr⟩; cases herr
      · rintro ⟨h1, _⟩; exact absurd h h1
    · rw [if_neg (fun h1 => h ((matchTest_iff _ _).mp h1)), ih]
      simp only [List.mem_cons, forall_eq_or_imp]
      exact ⟨fun h1 => ⟨h, h1⟩, fun h1 => h1.2⟩

theorem matchGroupLoop_error_eq (inviteLinkID : String) (groups : List GroupInfo) (err : GoError)
    (h : matchGroupLoop inviteLinkID groups = Except.error err) :
    err = GoError.noMatchingGroup inviteLinkID := by
  induction groups with
  | nil => simp only [matchGroupLoop, Except.error.injEq] at h; exact h.symm
  | cons g rest ih =>
    rw [matchGroupLoop_cons] at h
    split at h
    · cases h
    · exact ih h

theorem matchGroupID_of_groups (inviteLinkID : String) (w : World) (groups : List GroupInfo)
    (h : w.joinedGroups w.groupCalls = Except.ok groups) :
    (matchGroupID inviteLinkID w).1 = matchGroupLoop inviteLinkID groups := by
  simp [matchGroupID, World.GetJoinedGroups, h]

/-- C9, counterexample. Containment is case-sensitive: with the joined groups
"Family" (123) and "Work" (456) the input "fam" matches no group, and
matchGroupID returns the no-matching-group error instead of "123". -/
theorem matchGroupID_fam_not_found :
    (matchGroupID "fam" (exampleWorld [])).1 = Except.error (GoError.noMatchingGroup "fam") := by
  decide

/-- C9, amended. Over a joined-groups list, matchGroupID returns the trimmed
identifier of the first group, in list order, whose name, trimmed identifier
or full identifier contains the input as a case-sensitive substring, and it
returns an error (the no-matching-group error) exactly when no group matches;
setupUserPreferences then falls back to a personal target with the input as
identifier.  With the joined groups "Family" (123) and "Work" (456) the input
"Fam" resolves to "123", whereas "fam" matches no group. -/
theorem matchGroupID_spec (inviteLinkID : String) (groups : List GroupInfo) (w : World)
    (hgroups : w.joinedGroups w.groupCalls = Except.ok groups) :
    (∀ id, (matchGroupID inviteLinkID w).1 = Except.ok id ↔
      ∃ before group after, groups = before ++ group :: after ∧
        (∀ g ∈ before, ¬ MatchesGroup inviteLinkID g) ∧ MatchesGroup inviteLinkID group ∧
        id = TrimSuffix group.JID.String "@g.us") ∧
    ((∃ err, (matchGroupID inviteLinkID w).1 = Except.error err) ↔
      ∀ g ∈ groups, ¬ MatchesGroup inviteLinkID g) ∧
    (∀ err, (matchGroupID inviteLinkID w).1 = Except.error err →
      err = GoError.noMatchingGroup inviteLinkID) ∧
    (∀ (config : Config) (line : String) (rest : List String), w.stdin = line :: rest →
      TrimSpace line = inviteLinkID → isGroupIdentifier inviteLinkID = true →
      (∀ g ∈ groups, ¬ MatchesGroup inviteLinkID g) →
      (setupTarget config w).1.IsGroup = false ∧
      (setupTarget config w).1.NotifyTarget = inviteLinkID) ∧
    (matchGroupID "Fam" (exampleWorld [])).1 = Except.ok "123" ∧
    (∀ g ∈ exampleGroups, ¬ MatchesGroup "fam" g) := by
  rw [matchGroupID_of_groups inviteLinkID w groups hgroups]
  refine ⟨matchGroupLoop_ok_iff inviteLinkID groups, matchGroupLoop_error_iff inviteLinkID groups,
    fun err h => matchGroupLoop_error_eq inviteLinkID groups err h, ?_, by decide, ?_⟩
  · intro config line rest hin htrim hgrp hno
    obtain ⟨err, herr⟩ := (matchGroupLoop_error_iff inviteLinkID groups).mpr hno
    have h1 : matchGroupID inviteLinkID (w.scanLine).2 =
        (Except.error err, ((w.scanLine).2.GetJoinedGroups).2) := by
      simp only [matchGroupID, World.scanLine, hin, World.GetJoinedGroups, hgroups]
      rw [herr]
    simp only [setupTarget, htrim, hgrp, if_true]
    have h2 : w.scanLine = (line, (w.scanLine).2) := by simp [World.scanLine, hin]
    rw [h2]
    simp only [htrim, hgrp, if_true, h1]
    exact ⟨trivial, trivial⟩
  · have h := (matchGroupLoop_error_iff "fam" exampleGroups).mp ⟨GoError.noMatchingGroup "fam", by decide⟩
    exact h

/-- Witness of C9, on the input "Fam" and on the line "999x" that matches no group. -/
theorem matchGroupID_spec_witness :
    (matchGroupID "Fam" (exampleWorld [])).1 = Except.ok "123" ∧
    (∃ err, (matchGroupID "999x" (exampleWorld [])).1 = Except.error err) :=
  ⟨(matchGroupID_spec "Fam" exampleGroups (exampleWorld []) rfl).2.2.2.2.1,
   (matchGroupID_spec "999x" exampleGroups (exampleWorld []) rfl).2.1.mpr
     ((matchGroupLoop_error_iff "999x" exampleGroups).mp ⟨GoError.noMatchingGroup "999x", by decide⟩)⟩

/-! ## C7: sendWhatsAppNotification -/

theorem sendWhatsAppNotification_resolved (config : Config) (rate : Float64) (w : World)
    (recipient : JID) (hconn : config.Connected = true)
    (hrec : resolvedRecipient config w = some recipient) :
    ∃ w1 : World, sendWhatsAppNotification config rate w = sendToRecipient config rate recipient w1 ∧
      w1.sendOk = w.sendOk ∧ w1.sends = w.sends ∧ w1.selfJID = w.selfJID ∧
      ∃ l, w1.trace = w.trace ++ (Event.notify rate :: l) ∧
        ∀ e ∈ l, e.isSend = false ∧ e.isFallback = false ∧ e.isNotify = false := by
  unfold resolvedRecipient at hrec
  unfold sendWhatsAppNotification
  simp only [hconn, Bool.not_true, Bool.false_eq_true, if_false]
  by_cases hg : config.IsGroup = true
  · simp only [hg, if_true] at hrec ⊢
    cases hj : w.joinedGroups w.groupCalls with
    | error err => simp [hj] at hrec
    | ok groups =>
      simp only [hj] at hrec
      cases hm : matchGroupLoop config.NotifyTarget groups with
      | error err => simp [hm] at hrec
      | ok id =>
        simp only [hm, Option.some.injEq] at hrec
        subst hrec
        refine ⟨(w.emit (Event.notify rate)).GetJoinedGroups.2, ?_, rfl, rfl, rfl,
          [Event.getJoinedGroups], ?_, ?_⟩
        · simp [matchGroupID, World.GetJoinedGroups, World.emit, hj, hm]
        · simp [World.GetJoinedGroups, World.emit]
        · simp [Event.isSend, Event.isFallback, Event.isNotify]
  · simp only [hg, if_false, Option.some.injEq, Bool.false_eq_true] at hrec ⊢
    subst hrec
    exact ⟨w.emit (Event.notify rate), rfl, rfl, rfl, rfl, [], by simp [World.emit], by simp⟩

/-- The sends of the retry loop and the fallback, by the outcomes of the sends. -/
theorem sendToRecipient_sends (config : Config) (rate : Float64) (recipient : JID) (w : World) :
    ∃ l, (sendToRecipient config rate recipient w).trace = w.trace ++ l ∧
      (∀ e ∈ l, e.isNotify = false) ∧
      (∀ e ∈ l, e.isSend = true → e = Event.sendMessage recipient rate) ∧
      (∀ e ∈ l, e.isFallback = true → e = Event.sendFallback w.selfJID rate) ∧
      l.countP Event.isSend =
        (if w.sendOk w.sends = true then 1 else if w.sendOk (w.sends + 1) = true then 2 else 3) ∧
      l.countP Event.isFallback =
        (if w.sendOk w.sends = false ∧ w.sendOk (w.sends + 1) = false ∧
            w.sendOk (w.sends + 2) = false ∧ config.IsGroup = true then 1 else 0) ∧
      (w.sendOk w.sends = false → w.sendOk (w.sends + 1) = false → w.sendOk (w.sends + 2) = false →
        config.IsGroup = true → w.sendOk (w.sends + 3) = false →
        l.getLast? = some (Event.log LogMsg.fallbackFailed)) := by
  cases h0 : w.sendOk w.sends
  · cases h1 : w.sendOk (w.sends + 1)
    · cases h2 : w.sendOk (w.sends + 2)
      · cases hg : config.IsGroup
        · refine ⟨[Event.sendMessage recipient rate, Event.log (LogMsg.sendAttemptFailed 1),
            Event.sleep 5000, Event.sendMessage recipient rate,
            Event.log (LogMsg.sendAttemptFailed 2), Event.sleep 5000,
            Event.sendMessage recipient rate, Event.log (LogMsg.sendAttemptFailed 3),
            Event.sleep 5000, Event.log (LogMsg.sendFailedAfter 3)], ?_, ?_⟩
          · simp [sendToRecipient, sendLoop, World.SendMessage, World.logf, World.emit, h0, h1, h2, hg]
          · simp [Event.isSend, Event.isFallback, Event.isNotify]
        · cases h3 : w.sendOk (w.sends + 3)
          · refine ⟨[Event.sendMessage recipient rate, Event.log (LogMsg.sendAttemptFailed 1),
              Event.sleep 5000, Event.sendMessage recipient rate,
              Event.log (LogMsg.sendAttemptFailed 2), Event.sleep 5000,
              Event.sendMessage recipient rate, Event.log (LogMsg.sendAttemptFailed 3),
              Event.sleep 5000, Event.log (LogMsg.sendFailedAfter 3),
              Event.sendFallback w.selfJID rate, Event.log LogMsg.fallbackFailed], ?_, ?_⟩
            · simp [sendToRecipient, sendLoop, World.SendMessage, World.SendFallback, World.logf,
                World.emit, h0, h1, h2, h3, hg]
            · simp [Event.isSend, Event.isFallback, Event.isNotify]
          · refine ⟨[Event.sendMessage recipient rate, Event.log (LogMsg.sendAttemptFailed 1),
              Event.sleep 5000, Event.sendMessage recipient rate,
              Event.log (LogMsg.sendAttemptFailed 2), Event.sleep 5000,
              Event.sendMessage recipient rate, Event.log (LogMsg.sendAttemptFailed 3),
              Event.sleep 5000, Event.log (LogMsg.sendFailedAfter 3),
              Event.sendFallback w.selfJID rate, Event.log LogMsg.fallbackSent], ?_, ?_⟩
            · simp [sendToRecipient, sendLoop, World.SendMessage, World.SendFallback, World.logf,
                World.emit, h0, h1, h2, h3, hg]
            · simp [Event.isSend, Event.isFallback, Event.isNotify]
      · refine ⟨[Event.sendMessage recipient rate, Event.log (LogMsg.sendAttemptFailed 1),
          Event.sleep 5000, Event.sendMessage recipient rate,
          Event.log (LogMsg.sendAttemptFailed 2), Event.sleep 5000,
          Event.sendMessage recipient rate, Event.log LogMsg.notificationSent], ?_, ?_⟩
        · simp [sendToRecipient, sendLoop, World.SendMessage, World.logf, World.emit, h0, h1, h2]
        · simp [Event.isSend, Event.isFallback, Event.isNotify]
    · refine ⟨[Event.sendMessage recipient rate, Event.log (LogMsg.sendAttemptFailed 1),
        Event.sleep 5000, Event.sendMessage recipient rate, Event.log LogMsg.notificationSent], ?_, ?_⟩
      · simp [sendToRecipient, sendLoop, World.SendMessage, World.logf, World.emit, h0, h1]
      · simp [Event.isSend, Event.isFallback, Event.isNotify]
  · refine ⟨[Event.sendMessage recipient rate, Event.log LogMsg.notificationSent], ?_, ?_⟩
    · simp [sendToRecipient, sendLoop, World.SendMessage, World.logf, World.emit, h0]
    · simp [Event.isSend, Event.isFallback, Event.isNotify]

/-- C7. For a connected client and a resolved recipient,
sendWhatsAppNotification sends to the recipient at most 3 times, every such
send going to the resolved recipient, and stops at the first successful send
(if send k+1 is the first to succeed, exactly k+1 sends are made and no
fallback); if all 3 sends fail, exactly 3 are made; a fallback send, always
to the own identity, is made exactly once if and only if all 3 sends failed
and the target is a group, and at most once in any case; when the fallback
fails the last action is the logger line for it; the function is total and
leaves the Chrome session, its registries and the fetch counters alone. -/
theorem sendWhatsAppNotification_spec (config : Config) (rate : Float64) (w : World)
    (recipient : JID) (hconn : config.Connected = true)
    (hrec : resolvedRecipient config w = some recipient) :
    ((w.since (sendWhatsAppNotification config rate w)).countP Event.isSend ≤ 3) ∧
    (∀ e ∈ w.since (sendWhatsAppNotification config rate w), e.isSend = true →
      e = Event.sendMessage recipient rate) ∧
    (∀ k, k < 3 → (∀ j, j < k → w.sendOk (w.sends + j) = false) → w.sendOk (w.sends + k) = true →
      (w.since (sendWhatsAppNotification config rate w)).countP Event.isSend = k + 1 ∧
      (w.since (sendWhatsAppNotification config rate w)).countP Event.isFallback = 0) ∧
    ((∀ j, j < 3 → w.sendOk (w.sends + j) = false) →
      (w.since (sendWhatsAppNotification config rate w)).countP Event.isSend = 3) ∧
    ((w.since (sendWhatsAppNotification config rate w)).countP Event.isFallback = 1 ↔
      (∀ j, j < 3 → w.sendOk (w.sends + j) = false) ∧ config.IsGroup = true) ∧
    ((w.since (sendWhatsAppNotification config rate w)).countP Event.isFallback ≤ 1) ∧
    (∀ e ∈ w.since (sendWhatsAppNotification config rate w), e.isFallback = true →
      e = Event.sendFallback w.selfJID rate) ∧
    ((∀ j, j < 3 → w.sendOk (w.sends + j) = false) → config.IsGroup = true →
      w.sendOk (w.sends + 3) = false →
      (w.since (sendWhatsAppNotification config rate w)).getLast? =
        some (Event.log LogMsg.fallbackFailed)) ∧
    Step Event.isSampling w (sendWhatsAppNotification config rate w) ∧
    (sendWhatsAppNotification config rate w).fetches = w.fetches := by
  obtain ⟨w1, hw1, hok, hsends, hself, l1, hl1, hp1⟩ :=
    sendWhatsAppNotification_resolved config rate w recipient hconn hrec
  obtain ⟨l2, hl2, _, hS, hF, hcS, hcF, hlast⟩ := sendToRecipient_sends config rate recipient w1
  have htrace : (sendWhatsAppNotification config rate w).trace =
      w.trace ++ (Event.notify rate :: l1 ++ l2) := by
    rw [hw1, hl2, hl1]; simp
  have hsince := World.since_of_trace htrace
  have c1S : l1.countP Event.isSend = 0 := by
    rw [List.countP_eq_zero]; intro e he; simp [(hp1 e he).1]
  have c1F : l1.countP Event.isFallback = 0 := by
    rw [List.countP_eq_zero]; intro e he; simp [(hp1 e he).2.1]
  have cS : (Event.notify rate :: l1 ++ l2).countP Event.isSend = l2.countP Event.isSend := by
    rw [List.countP_append, List.countP_cons, c1S]; simp [Event.isSend]
  have cF : (Event.notify rate :: l1 ++ l2).countP Event.isFallback =
      l2.countP Event.isFallback := by
    rw [List.countP_append, List.countP_cons, c1F]; simp [Event.isFallback]
  have hmem : ∀ e ∈ (Event.notify rate :: l1 ++ l2), e = Event.notify rate ∨ e ∈ l1 ∨ e ∈ l2 := by
    intro e he
    rcases List.mem_append.mp he with h | h
    · rcases List.mem_cons.mp h with h | h
      · exact Or.inl h
      · exact Or.inr (Or.inl h)
    · exact Or.inr (Or.inr h)
  have hall : (∀ j, j < 3 → w.sendOk (w.sends + j) = false) ↔
      (w.sendOk w.sends = false ∧ w.sendOk (w.sends + 1) = false ∧ w.sendOk (w.sends + 2) = false) := by
    constructor
    · intro h; exact ⟨h 0 (by omega), h 1 (by omega), h 2 (by omega)⟩
    · rintro ⟨h0, h1, h2⟩ j hj
      have : j = 0 ∨ j = 1 ∨ j = 2 := by omega
      rcases this with rfl | rfl | rfl
      · exact h0
      · exact h1
      · exact h2
  rw [hok, hsends] at hcS hcF hlast
  rw [hself] at hF
  rw [hsince, cS, cF]
  refine ⟨?_, ?_, ?_, ?_, ?_, ?_, ?_, ?_, ?_, ?_⟩
  · rw [hcS]; split
    · omega
    · split <;> omega
  · intro e he hs
    rcases hmem e he with h | h | h
    · subst h; simp [Event.isSend] at hs
    · simp [(hp1 e h).1] at hs
    · exact hS e h hs
  · intro k hk hfail hgood
    have : k = 0 ∨ k = 1 ∨ k = 2 := by omega
    rcases this with rfl | rfl | rfl
    · simp only [Nat.add_zero] at hgood
      rw [hcS, hcF]; simp [hgood]
    · have h0 := hfail 0 (by omega)
      simp only [Nat.add_zero] at h0
      rw [hcS, hcF]; simp [hgood, h0]
    · have h0 := hfail 0 (by omega)
      have h1 := hfail 1 (by omega)
      simp only [Nat.add_zero] at h0
      rw [hcS, hcF]; simp [hgood, h0, h1]
  · intro h
    obtain ⟨h0, h1, h2⟩ := hall.mp h
    rw [hcS]; simp [h0, h1]
  · rw [hcF, hall]
    constructor
    · intro h
      by_contra hne
      rw [if_neg (by tauto)] at h
      omega
    · rintro ⟨⟨h0, h1, h2⟩, hg⟩
      rw [if_pos ⟨h0, h1, h2, hg⟩]
  · rw [hcF]; split <;> omega
  · intro e he hf
    rcases hmem e he with h | h | h
    · subst h; simp [Event.isFallback] at hf
    · simp [(hp1 e h).2.1] at hf
    · exact hF e h hf
  · intro h hg h3
    obtain ⟨h0, h1, h2⟩ := hall.mp h
    have hl := hlast h0 h1 h2 hg h3
    rw [List.getLast?_append, hl]; rfl
  · obtain ⟨h1, _, _⟩ := sendWhatsAppNotification_step config rate w
    exact (Step.emit (P := Event.isSampling) w (Event.notify rate) rfl).trans
      (h1.mono (by intro e he; cases e <;> simp_all [Event.isSendSide, Event.isSampling, Event.isSession]))
  · exact (sendWhatsAppNotification_step config rate w).2.1

/-- Witness of C7: a group target, a connected client, all sends failing:
three sends to the group, one fallback, whose failure is the last logger line. -/
theorem sendWhatsAppNotification_spec_witness :
    exampleGroupConfig.Connected = true ∧
    resolvedRecipient exampleGroupConfig failingSendWorld = some (NewJID "123" GroupServer) ∧
    (failingSendWorld.since (sendWhatsAppNotification exampleGroupConfig (Float64.ofDecimal 300 2)
      failingSendWorld)).countP Event.isSend = 3 ∧
    (failingSendWorld.since (sendWhatsAppNotification exampleGroupConfig (Float64.ofDecimal 300 2)
      failingSendWorld)).countP Event.isFallback = 1 :=
  ⟨rfl, by decide,
   (sendWhatsAppNotification_spec exampleGroupConfig (Float64.ofDecimal 300 2) failingSendWorld
      (NewJID "123" GroupServer) rfl (by decide)).2.2.2.1 (fun _ _ => rfl),
   (sendWhatsAppNotification_spec exampleGroupConfig (Float64.ofDecimal 300 2) failingSendWorld
      (NewJID "123" GroupServer) rfl (by decide)).2.2.2.2.1.mpr ⟨fun _ _ => rfl, rfl⟩⟩

/-! ## fetchAndPrintLabel -/

theorem Step.countP_eq {P : Event → Bool} {w1 w2 : World} (h : Step P w1 w2) (Q : Event → Bool)
    (hPQ : ∀ e, P e = true → Q e = false) : w2.trace.countP Q = w1.trace.countP Q := by
  rw [List.countP_eq_length_filter, List.countP_eq_length_filter, h.filter_eq Q hPQ]

theorem sendWhatsAppNotification_notifyCount (config : Config) (rate : Float64) (w : World) :
    notifyCount (sendWhatsAppNotification config rate w).trace = notifyCount w.trace + 1 := by
  have h := (sendWhatsAppNotification_step config rate w).1
  unfold notifyCount
  rw [h.countP_eq Event.isNotify (by intro e he; cases e <;> simp_all [Event.isSendSide, Event.isNotify])]
  simp [World.emit, Event.isNotify]

theorem sendWhatsAppNotification_sampling (config : Config) (rate : Float64) (w : World) :
    Step Event.isSampling w (sendWhatsAppNotification config rate w) :=
  (Step.emit (P := Event.isSampling) w (Event.notify rate) rfl).trans
    ((sendWhatsAppNotification_step config rate w).1.mono
      (by intro e he; cases e <;> simp_all [Event.isSendSide, Event.isSampling, Event.isSession]))

/-- A failed sample: the error is returned and nothing but the fetch happens. -/
theorem fetchAndPrintLabel_fail (ParseFloat : String → Option Float64) (ctx : Nat)
    (prevRate : Float64) (config : Config) (w : World) (err : GoError)
    (h : sampleOf ParseFloat (w.fetchResult w.fetches) = Except.error err) :
    fetchAndPrintLabel ParseFloat ctx prevRate config w =
      { err := some err, prevRate := prevRate, config := config, world := (w.runFetch ctx).2 } := by
  unfold fetchAndPrintLabel
  cases hf : w.fetchResult w.fetches with
  | error e =>
    have hrun : w.runFetch ctx = (Except.error e, (w.runFetch ctx).2) := by
      simp [World.runFetch, hf]
    rw [hrun]
    simp only [sampleOf, hf, Except.error.injEq] at h
    simp [h]
  | ok label =>
    have hrun : w.runFetch ctx = (Except.ok label, (w.runFetch ctx).2) := by
      simp [World.runFetch, hf]
    rw [hrun]
    simp only [sampleOf, hf] at h
    simp [h]

/-- A successful sample with rate `v`. -/
theorem fetchAndPrintLabel_ok (ParseFloat : String → Option Float64) (ctx : Nat)
    (prevRate : Float64) (config : Config) (w : World) (v : Float64)
    (h : sampleOf ParseFloat (w.fetchResult w.fetches) = Except.ok v) :
    fetchAndPrintLabel ParseFloat ctx prevRate config w =
      if shouldNotify v config = true then
        { err := none, prevRate := v, config := { config with LastNotifiedRate := v },
          world := sendWhatsAppNotification config v
            ((w.runFetch ctx).2.emit (Event.printColoredRate v prevRate)) }
      else
        { err := none, prevRate := v, config := config,
          world := (w.runFetch ctx).2.emit (Event.printColoredRate v prevRate) } := by
  unfold fetchAndPrintLabel
  cases hf : w.fetchResult w.fetches with
  | error e => simp [sampleOf, hf] at h
  | ok label =>
    have hrun : w.runFetch ctx = (Except.ok label, (w.runFetch ctx).2) := by
      simp [World.runFetch, hf]
    rw [hrun]
    simp only [sampleOf, hf] at h
    simp only [h]

/-- What every call of fetchAndPrintLabel leaves alone, and what it counts. -/
theorem fetchAndPrintLabel_step (ParseFloat : String → Option Float64) (ctx : Nat)
    (prevRate : Float64) (config : Config) (w : World) :
    Step Event.isSampling w (fetchAndPrintLabel ParseFloat ctx prevRate config w).world ∧
    (fetchAndPrintLabel ParseFloat ctx prevRate config w).world.fetches = w.fetches + 1 ∧
    (fetchAndPrintLabel ParseFloat ctx prevRate config w).world.selects = w.selects := by
  have hrun := Step.runFetch (P := Event.isSampling) w ctx rfl
  cases hs : sampleOf ParseFloat (w.fetchResult w.fetches) with
  | error err =>
    rw [fetchAndPrintLabel_fail ParseFloat ctx prevRate config w err hs]
    exact ⟨hrun, rfl, rfl⟩
  | ok v =>
    rw [fetchAndPrintLabel_ok ParseFloat ctx prevRate config w v hs]
    have hprint := hrun.trans
      (Step.emit (P := Event.isSampling) (w.runFetch ctx).2 (Event.printColoredRate v prevRate) rfl)
    split
    · refine ⟨hprint.trans (sendWhatsAppNotification_sampling _ _ _), ?_, ?_⟩
      · rw [(sendWhatsAppNotification_step _ _ _).2.1]; rfl
      · rw [(sendWhatsAppNotification_step _ _ _).2.2]; rfl
    · exact ⟨hprint, rfl, rfl⟩

/-- A successful sample enters sendWhatsAppNotification exactly when shouldNotify holds. -/
theorem fetchAndPrintLabel_notifyCount (ParseFloat : String → Option Float64) (ctx : Nat)
    (prevRate : Float64) (config : Config) (w : World) (v : Float64)
    (h : sampleOf ParseFloat (w.fetchResult w.fetches) = Except.ok v) :
    notifyCount (fetchAndPrintLabel ParseFloat ctx prevRate config w).world.trace =
      notifyCount w.trace + (if shouldNotify v config = true then 1 else 0) := by
  rw [fetchAndPrintLabel_ok ParseFloat ctx prevRate config w v h]
  split
  · simp only [if_true]
    rw [sendWhatsAppNotification_notifyCount]
    simp [notifyCount, World.emit, World.runFetch, Event.isNotify]
  · simp [notifyCount, World.emit, World.runFetch, Event.isNotify]

theorem sendWhatsAppNotification_no_send (config : Config) (rate : Float64) (w : World)
    (h : config.Connected = false ∨ resolvedRecipient config w = none) :
    (sendWhatsAppNotification config rate w).sends = w.sends := by
  unfold sendWhatsAppNotification
  simp only
  by_cases hc : config.Connected = true
  · have hr : resolvedRecipient config w = none := by
      rcases h with h | h
      · rw [hc] at h; cases h
      · exact h
    unfold resolvedRecipient at hr
    simp only [hc, Bool.not_true, Bool.false_eq_true, if_false]
    by_cases hg : config.IsGroup = true
    · simp only [hg, if_true] at hr ⊢
      cases hj : w.joinedGroups w.groupCalls with
      | error err => simp [matchGroupID, World.GetJoinedGroups, World.emit, World.logf, hj]
      | ok groups =>
        simp only [hj] at hr
        cases hm : matchGroupLoop config.NotifyTarget groups with
        | error err => simp [matchGroupID, World.GetJoinedGroups, World.emit, World.logf, hj, hm]
        | ok id => simp [hm] at hr
    · simp [hg] at hr
  · simp [hc, World.logf, World.emit]

/-! ## C8: when LastNotifiedRate is written -/

/-- C8, counterexample. With a client that is not connected, and with a
group target that no joined group matches, the out-of-range sample 3.00 makes
no call of SendMessage at all, yet LastNotifiedRate goes from its initial
zero to 3.00. -/
theorem lastNotifiedRate_written_without_send :
    disconnectedConfig.LastNotifiedRate = Float64.zero ∧
    (fetchAndPrintLabel parseFloatDecimal 0 Float64.zero disconnectedConfig
      (exampleWorld ["SGD 1.00 = MYR 3.00"])).world.sends = 0 ∧
    (fetchAndPrintLabel parseFloatDecimal 0 Float64.zero disconnectedConfig
      (exampleWorld ["SGD 1.00 = MYR 3.00"])).config.LastNotifiedRate = Float64.ofDecimal 300 2 ∧
    unmatchedGroupConfig.LastNotifiedRate = Float64.zero ∧
    (fetchAndPrintLabel parseFloatDecimal 0 Float64.zero unmatchedGroupConfig
      (exampleWorld ["SGD 1.00 = MYR 3.00"])).world.sends = 0 ∧
    (fetchAndPrintLabel parseFloatDecimal 0 Float64.zero unmatchedGroupConfig
      (exampleWorld ["SGD 1.00 = MYR 3.00"])).config.LastNotifiedRate = Float64.ofDecimal 300 2 := by
  decide

/-- C8, amended. fetchAndPrintLabel writes LastNotifiedRate exactly when
shouldNotify holds for a successfully fetched sample, after
sendWhatsAppNotification has returned and whatever that call did: the new
value is the rate of the sample, also when no send was attempted because the
client was not connected or the group was not resolved.  For a failed fetch
and for every sample for which shouldNotify is false, in particular every
in-range sample, the whole configuration is left unchanged; no other field is
ever written. -/
theorem fetchAndPrintLabel_lastNotifiedRate (ParseFloat : String → Option Float64) (ctx : Nat)
    (prevRate : Float64) (config : Config) (w : World) :
    (∀ err, sampleOf ParseFloat (w.fetchResult w.fetches) = Except.error err →
      (fetchAndPrintLabel ParseFloat ctx prevRate config w).config = config) ∧
    (∀ v, sampleOf ParseFloat (w.fetchResult w.fetches) = Except.ok v →
      (fetchAndPrintLabel ParseFloat ctx prevRate config w).config =
        if shouldNotify v config = true then { config with LastNotifiedRate := v } else config) ∧
    (∀ v, sampleOf ParseFloat (w.fetchResult w.fetches) = Except.ok v →
      Float64.le v config.DesiredMinRate = false → Float64.ge v config.DesiredMaxRate = false →
      (fetchAndPrintLabel ParseFloat ctx prevRate config w).config = config ∧
      notifyCount (fetchAndPrintLabel ParseFloat ctx prevRate config w).world.trace =
        notifyCount w.trace) ∧
    (∀ v, sampleOf ParseFloat (w.fetchResult w.fetches) = Except.ok v →
      shouldNotify v config = true →
      (fetchAndPrintLabel ParseFloat ctx prevRate config w).config.LastNotifiedRate = v ∧
      (fetchAndPrintLabel ParseFloat ctx prevRate config w).world =
        sendWhatsAppNotification config v
          ((w.runFetch ctx).2.emit (Event.printColoredRate v prevRate)) ∧
      (config.Connected = false ∨ resolvedRecipient config w = none →
        (fetchAndPrintLabel ParseFloat ctx prevRate config w).world.sends = w.sends)) := by
  refine ⟨?_, ?_, ?_, ?_⟩
  · intro err h
    rw [fetchAndPrintLabel_fail ParseFloat ctx prevRate config w err h]
  · intro v h
    rw [fetchAndPrintLabel_ok ParseFloat ctx prevRate config w v h]
    split <;> rfl
  · intro v h hlo hhi
    have hs : shouldNotify v config = false := by simp [shouldNotify, hlo, hhi]
    rw [fetchAndPrintLabel_notifyCount ParseFloat ctx prevRate config w v h,
      fetchAndPrintLabel_ok ParseFloat ctx prevRate config w v h]
    simp [hs]
  · intro v h hs
    rw [fetchAndPrintLabel_ok ParseFloat ctx prevRate config w v h]
    simp only [hs, if_true]
    refine ⟨trivial, trivial, ?_⟩
    intro hno
    have hno2 : config.Connected = false ∨
        resolvedRecipient config ((w.runFetch ctx).2.emit (Event.printColoredRate v prevRate)) =
          none := hno
    rw [sendWhatsAppNotification_no_send config v
      ((w.runFetch ctx).2.emit (Event.printColoredRate v prevRate)) hno2]
    rfl

/-- Witness of C8: the in-range sample 2.70 leaves the configuration unchanged. -/
theorem fetchAndPrintLabel_lastNotifiedRate_witness :
    (fetchAndPrintLabel parseFloatDecimal 0 Float64.zero exampleConfig
      (exampleWorld ["SGD 1.00 = MYR 2.70"])).config = exampleConfig :=
  ((fetchAndPrintLabel_lastNotifiedRate parseFloatDecimal 0 Float64.zero exampleConfig
      (exampleWorld ["SGD 1.00 = MYR 2.70"])).2.2.1 (Float64.ofDecimal 270 2)
      (by decide) (by decide) (by decide)).1

/-! ## C2 and C3: runs of samples -/

theorem processSamples_succ (ParseFloat : String → Option Float64) (ctx n : Nat)
    (prevRate : Float64) (config : Config) (w : World) :
    processSamples ParseFloat ctx (n + 1) prevRate config w =
      (decide (notifyCount w.trace <
          notifyCount (fetchAndPrintLabel ParseFloat ctx prevRate config w).world.trace) ::
        (processSamples ParseFloat ctx n (fetchAndPrintLabel ParseFloat ctx prevRate config w).prevRate
          (fetchAndPrintLabel ParseFloat ctx prevRate config w).config
          (fetchAndPrintLabel ParseFloat ctx prevRate config w).world).1,
       (processSamples ParseFloat ctx n (fetchAndPrintLabel ParseFloat ctx prevRate config w).prevRate
          (fetchAndPrintLabel ParseFloat ctx prevRate config w).config
          (fetchAndPrintLabel ParseFloat ctx prevRate config w).world).2) := rfl

/-- Samples for which shouldNotify is false: no call enters
sendWhatsAppNotification and the configuration stays as it is. -/
theorem processSamples_quiet (ParseFloat : String → Option Float64) (ctx : Nat) (config : Config)
    (n : Nat) : ∀ (prevRate : Float64) (w : World),
    (∀ i, i < n → ∃ v, sampleOf ParseFloat (w.fetchResult (w.fetches + i)) = Except.ok v ∧
      shouldNotify v config = false) →
    (processSamples ParseFloat ctx n prevRate config w).1 = List.replicate n false ∧
    (processSamples ParseFloat ctx n prevRate config w).2.config = config := by
  induction n with
  | zero => intro prevRate w _; exact ⟨rfl, rfl⟩
  | succ n ih =>
    intro prevRate w h
    obtain ⟨v, hv, hs⟩ := h 0 (Nat.succ_pos n)
    rw [Nat.add_zero] at hv
    obtain ⟨hstep, hfetches, _⟩ := fetchAndPrintLabel_step ParseFloat ctx prevRate config w
    have hcount := fetchAndPrintLabel_notifyCount ParseFloat ctx prevRate config w v hv
    have hcfg : (fetchAndPrintLabel ParseFloat ctx prevRate config w).config = config := by
      rw [fetchAndPrintLabel_ok ParseFloat ctx prevRate config w v hv]; simp [hs]
    rw [processSamples_succ, hcfg]
    have hrest := ih (fetchAndPrintLabel ParseFloat ctx prevRate config w).prevRate
      (fetchAndPrintLabel ParseFloat ctx prevRate config w).world (by
        intro i hi
        rw [hstep.fetchResult, hfetches, Nat.add_assoc, Nat.add_comm 1 i]
        exact h (i + 1) (Nat.succ_lt_succ hi))
    refine ⟨?_, hrest.2⟩
    simp only [hrest.1, List.replicate_succ, List.cons.injEq, and_true]
    rw [hcount]; simp [hs]

/-- C2, counterexample. The rate 0 is out of range for the bounds 1.00 and
2.00, but it equals the initial value of LastNotifiedRate: from the state with
no prior notification, none of three samples 0.00 notifies, the first one
included. -/
theorem zero_rate_never_notifies :
    Float64.le (Float64.ofDecimal 0 2) (Float64.ofDecimal 100 2) = true ∧
    Config.zero.LastNotifiedRate = Float64.zero ∧
    (processSamples parseFloatDecimal 0 3 Float64.zero
      { Config.zero with Connected := true, DesiredMinRate := Float64.ofDecimal 100 2,
                         DesiredMaxRate := Float64.ofDecimal 200 2 }
      (exampleWorld ["SGD 1.00 = MYR 0.00", "SGD 1.00 = MYR 0.00", "SGD 1.00 = MYR 0.00"])).1 =
      [false, false, false] := by
  decide

/-- C2, amended. For every run of n+1 successfully fetched samples that all
carry the same out-of-range value v, processed one after another by
fetchAndPrintLabel from a state with no prior notification (LastNotifiedRate
at its initial zero), if v is not 0 then the first sample enters
sendWhatsAppNotification and no later one does, and LastNotifiedRate ends as
v.  On the samples [3.00, 3.00, 3.00] with min 2.50 and max 3.00 the
decisions are notify, no, no. -/
theorem identical_samples_notify_once (ParseFloat : String → Option Float64) (ctx n : Nat)
    (prevRate v : Float64) (config : Config) (w : World)
    (hfresh : config.LastNotifiedRate = Float64.zero)
    (hout : Float64.le v config.DesiredMinRate = true ∨ Float64.ge v config.DesiredMaxRate = true)
    (hnz : Float64.ne v Float64.zero = true)
    (hsamples : ∀ i, i < n + 1 →
      sampleOf ParseFloat (w.fetchResult (w.fetches + i)) = Except.ok v) :
    (processSamples ParseFloat ctx (n + 1) prevRate config w).1 = true :: List.replicate n false ∧
    (processSamples ParseFloat ctx (n + 1) prevRate config w).2.config.LastNotifiedRate = v ∧
    (processSamples parseFloatDecimal 0 3 Float64.zero exampleConfig
      (exampleWorld ["SGD 1.00 = MYR 3.00", "SGD 1.00 = MYR 3.00", "SGD 1.00 = MYR 3.00"])).1 =
      [true, false, false] := by
  have hv := hsamples 0 (Nat.succ_pos n)
  rw [Nat.add_zero] at hv
  have hs : shouldNotify v config = true := by
    simp only [shouldNotify, hfresh, hnz, Bool.and_true, Bool.or_eq_true]
    exact hout
  have hself : Float64.eq v v = true := by
    rcases hout with h | h
    · exact Float64.eq_self_of_le h
    · exact Float64.eq_self_of_ge h
  obtain ⟨hstep, hfetches, _⟩ := fetchAndPrintLabel_step ParseFloat ctx prevRate config w
  have hcount := fetchAndPrintLabel_notifyCount ParseFloat ctx prevRate config w v hv
  have hcfg : (fetchAndPrintLabel ParseFloat ctx prevRate config w).config =
      { config with LastNotifiedRate := v } := by
    rw [fetchAndPrintLabel_ok ParseFloat ctx prevRate config w v hv]; simp [hs]
  have hrest := processSamples_quiet ParseFloat ctx { config with LastNotifiedRate := v } n
    (fetchAndPrintLabel ParseFloat ctx prevRate config w).prevRate
    (fetchAndPrintLabel ParseFloat ctx prevRate config w).world (by
      intro i hi
      refine ⟨v, ?_, ?_⟩
      · rw [hstep.fetchResult, hfetches, Nat.add_assoc, Nat.add_comm 1 i]
        exact hsamples (i + 1) (Nat.succ_lt_succ hi)
      · simp [shouldNotify, Float64.ne, hself])
  rw [processSamples_succ, hcfg]
  refine ⟨?_, ?_, by decide⟩
  · simp only [hrest.1, List.cons.injEq, and_true]
    rw [hcount]; simp [hs]
  · rw [hrest.2]

/-- Witness of C2 on three samples 3.00 with the bounds 2.50 and 3.00. -/
theorem identical_samples_notify_once_witness :
    (processSamples parseFloatDecimal 7 3 Float64.zero exampleConfig
      (exampleWorld ["SGD 1.00 = MYR 3.00", "SGD 1.00 = MYR 3.00", "SGD 1.00 = MYR 3.00"])).2.config.LastNotifiedRate =
      Float64.ofDecimal 300 2 :=
  (identical_samples_notify_once parseFloatDecimal 7 2 Float64.zero (Float64.ofDecimal 300 2)
    exampleConfig
    (exampleWorld ["SGD 1.00 = MYR 3.00", "SGD 1.00 = MYR 3.00", "SGD 1.00 = MYR 3.00"])
    rfl (by decide) (by decide) (by decide)).2.1

/-- C3, counterexample. An in-range excursion does not re-arm the gate: on
[2.40, 2.70, 2.40] with min 2.50 and max 3.00, from a fresh state, the third
sample (2.40 again, after the in-range 2.70) does not notify; and on the
samples [2.40, 2.45, 2.40] of the example the second sample does notify,
since 2.45 <= 2.50 is out of range. -/
theorem excursion_does_not_rearm :
    Float64.le (Float64.ofDecimal 270 2) exampleConfig.DesiredMinRate = false ∧
    Float64.ge (Float64.ofDecimal 270 2) exampleConfig.DesiredMaxRate = false ∧
    (processSamples parseFloatDecimal 0 3 Float64.zero exampleConfig
      (exampleWorld ["SGD 1.00 = MYR 2.40", "SGD 1.00 = MYR 2.70", "SGD 1.00 = MYR 2.40"])).1 =
      [true, false, false] ∧
    Float64.le (Float64.ofDecimal 245 2) exampleConfig.DesiredMinRate = true ∧
    (processSamples parseFloatDecimal 0 3 Float64.zero exampleConfig
      (exampleWorld ["SGD 1.00 = MYR 2.40", "SGD 1.00 = MYR 2.45", "SGD 1.00 = MYR 2.40"])).1 =
      [true, true, true] := by
  decide

/-- C3, amended. An in-range excursion does not re-arm notification: for
every out-of-range value v that has just been notified (LastNotifiedRate is
v), if n in-range samples follow and then v is sampled again, none of these
n+1 samples notifies and the configuration is unchanged; eligibility for v
returns only once a different value has been notified.  On the samples
[2.40, 2.45, 2.40] with min 2.50 and max 3.00, processed in order from a
fresh state, all three samples notify: 2.45 is out of range (2.45 <= 2.50)
and differs from the 2.40 notified before it, and the third 2.40 differs from
the 2.45 notified before it. -/
theorem excursion_keeps_suppression (ParseFloat : String → Option Float64) (ctx n : Nat)
    (prevRate v : Float64) (config : Config) (w : World)
    (hlast : config.LastNotifiedRate = v)
    (hout : Float64.le v config.DesiredMinRate = true ∨ Float64.ge v config.DesiredMaxRate = true)
    (hin : ∀ i, i < n → ∃ u, sampleOf ParseFloat (w.fetchResult (w.fetches + i)) = Except.ok u ∧
      Float64.le u config.DesiredMinRate = false ∧ Float64.ge u config.DesiredMaxRate = false)
    (hagain : sampleOf ParseFloat (w.fetchResult (w.fetches + n)) = Except.ok v) :
    (processSamples ParseFloat ctx (n + 1) prevRate config w).1 = List.replicate (n + 1) false ∧
    (processSamples ParseFloat ctx (n + 1) prevRate config w).2.config = config ∧
    (processSamples parseFloatDecimal 0 3 Float64.zero exampleConfig
      (exampleWorld ["SGD 1.00 = MYR 2.40", "SGD 1.00 = MYR 2.45", "SGD 1.00 = MYR 2.40"])).1 =
      [true, true, true] := by
  have hself : Float64.eq v v = true := by
    rcases hout with h | h
    · exact Float64.eq_self_of_le h
    · exact Float64.eq_self_of_ge h
  have h := processSamples_quiet ParseFloat ctx config (n + 1) prevRate w (by
    intro i hi
    by_cases hlt : i < n
    · obtain ⟨u, hu, hlo, hhi⟩ := hin i hlt
      exact ⟨u, hu, by simp [shouldNotify, hlo, hhi]⟩
    · have : i = n := by omega
      subst this
      exact ⟨v, hagain, by simp [shouldNotify, hlast, Float64.ne, hself]⟩)
  exact ⟨h.1, h.2, by decide⟩

/-- Witness of C3: 2.40 notified, then the in-range 2.70, then 2.40 again. -/
theorem excursion_keeps_suppression_witness :
    (processSamples parseFloatDecimal 0 2 (Float64.ofDecimal 240 2)
      { exampleConfig with LastNotifiedRate := Float64.ofDecimal 240 2 }
      (exampleWorld ["SGD 1.00 = MYR 2.70", "SGD 1.00 = MYR 2.40"])).1 = [false, false] :=
  (excursion_keeps_suppression parseFloatDecimal 0 1 (Float64.ofDecimal 240 2)
    (Float64.ofDecimal 240 2) { exampleConfig with LastNotifiedRate := Float64.ofDecimal 240 2 }
    (exampleWorld ["SGD 1.00 = MYR 2.70", "SGD 1.00 = MYR 2.40"]) rfl (by decide)
    (by
      intro i hi
      have : i = 0 := by omega
      subst this
      exact ⟨Float64.ofDecimal 270 2, by decide, by decide, by decide⟩)
    (by decide)).1

/-! ## C5: fetchAndPrintLabelWithRetry -/

theorem fetchRetryLoop_succ (ParseFloat : String → Option Float64) (ctx maxRetries retryDelayMs : Nat)
    (remaining attempt : Nat) (err0 : Option GoError) (prevRate : Float64) (config : Config)
    (w : World) :
    fetchRetryLoop ParseFloat ctx maxRetries retryDelayMs (remaining + 1) attempt err0 prevRate config w =
      match (fetchAndPrintLabel ParseFloat ctx prevRate config w).err with
      | none => fetchAndPrintLabel ParseFloat ctx prevRate config w
      | some err =>
        match ((fetchAndPrintLabel ParseFloat ctx prevRate config w).world.logf
            (LogMsg.fetchAttemptFailed (attempt + 1) err)).selectDone retryDelayMs with
        | (true, w2) =>
          { err := some GoError.ctxErr,
            prevRate := (fetchAndPrintLabel ParseFloat ctx prevRate config w).prevRate,
            config := (fetchAndPrintLabel ParseFloat ctx prevRate config w).config, world := w2 }
        | (false, w2) =>
          fetchRetryLoop ParseFloat ctx maxRetries retryDelayMs remaining (attempt + 1) (some err)
            (fetchAndPrintLabel ParseFloat ctx prevRate config w).prevRate
            (fetchAndPrintLabel ParseFloat ctx prevRate config w).config w2 := rfl

/-- A round of the retry loop whose sample succeeds returns what fetchAndPrintLabel returns. -/
theorem fetchRetryLoop_ok_round (ParseFloat : String → Option Float64) (ctx maxRetries retryDelayMs : Nat)
    (remaining attempt : Nat) (err0 : Option GoError) (prevRate : Float64) (config : Config)
    (w : World) (v : Float64) (h : sampleOf ParseFloat (w.fetchResult w.fetches) = Except.ok v) :
    fetchRetryLoop ParseFloat ctx maxRetries retryDelayMs (remaining + 1) attempt err0 prevRate config w =
      fetchAndPrintLabel ParseFloat ctx prevRate config w := by
  have herr : (fetchAndPrintLabel ParseFloat ctx prevRate config w).err = none := by
    rw [fetchAndPrintLabel_ok ParseFloat ctx prevRate config w v h]; split <;> rfl
  rw [fetchRetryLoop_succ]
  simp only [herr]

/-- The world after a failed round when the context is not done: one fetch,
one logger line, one wait. -/
theorem fetchRetryLoop_fail_round (ParseFloat : String → Option Float64) (ctx maxRetries retryDelayMs : Nat)
    (remaining attempt : Nat) (err0 : Option GoError) (prevRate : Float64) (config : Config)
    (w : World) (err : GoError)
    (h : sampleOf ParseFloat (w.fetchResult w.fetches) = Except.error err)
    (hctx : w.ctxDone w.selects = false) :
    fetchRetryLoop ParseFloat ctx maxRetries retryDelayMs (remaining + 1) attempt err0 prevRate config w =
      fetchRetryLoop ParseFloat ctx maxRetries retryDelayMs remaining (attempt + 1) (some err) prevRate
        config (w.afterFailedAttempt ctx (attempt + 1) err retryDelayMs) := by
  rw [fetchRetryLoop_succ, fetchAndPrintLabel_fail ParseFloat ctx prevRate config w err h]
  simp [World.selectDone, World.logf, World.emit, World.runFetch, World.afterFailedAttempt, hctx]

theorem fetchRetryLoop_step (ParseFloat : String → Option Float64) (ctx maxRetries retryDelayMs : Nat)
    (remaining : Nat) : ∀ (attempt : Nat) (err0 : Option GoError) (prevRate : Float64)
      (config : Config) (w : World),
    Step Event.isSampling w
      (fetchRetryLoop ParseFloat ctx maxRetries retryDelayMs remaining attempt err0 prevRate config w).world ∧
    (fetchRetryLoop ParseFloat ctx maxRetries retryDelayMs remaining attempt err0 prevRate config
      w).world.fetches ≤ w.fetches + remaining := by
  induction remaining with
  | zero => intro attempt err0 prevRate config w; exact ⟨Step.refl _ _, Nat.le_refl _⟩
  | succ n ih =>
    intro attempt err0 prevRate config w
    obtain ⟨h1, h2, _⟩ := fetchAndPrintLabel_step ParseFloat ctx prevRate config w
    rw [fetchRetryLoop_succ]
    cases herr : (fetchAndPrintLabel ParseFloat ctx prevRate config w).err with
    | none => simp only; exact ⟨h1, by omega⟩
    | some err =>
      simp only
      have h3 := Step.logf (P := Event.isSampling)
        (fetchAndPrintLabel ParseFloat ctx prevRate config w).world
        (LogMsg.fetchAttemptFailed (attempt + 1) err) rfl
      have h4 := Step.selectDone (P := Event.isSampling)
        ((fetchAndPrintLabel ParseFloat ctx prevRate config w).world.logf
          (LogMsg.fetchAttemptFailed (attempt + 1) err)) retryDelayMs rfl
      have h5 : (((fetchAndPrintLabel ParseFloat ctx prevRate config w).world.logf
          (LogMsg.fetchAttemptFailed (attempt + 1) err)).selectDone retryDelayMs).2.fetches =
          w.fetches + 1 := by
        rw [← h2]; unfold World.selectDone; split <;> rfl
      generalize ((fetchAndPrintLabel ParseFloat ctx prevRate config w).world.logf
          (LogMsg.fetchAttemptFailed (attempt + 1) err)).selectDone retryDelayMs = r at h4 h5
      obtain ⟨b, w2⟩ := r
      cases b
      · simp only
        obtain ⟨i1, i2⟩ := ih (attempt + 1) (some err)
          (fetchAndPrintLabel ParseFloat ctx prevRate config w).prevRate
          (fetchAndPrintLabel ParseFloat ctx prevRate config w).config w2
        simp only at h5
        exact ⟨((h1.trans h3).trans h4).trans i1, by omega⟩
      · simp only at h5 ⊢
        exact ⟨(h1.trans h3).trans h4, by omega⟩

theorem fetchAndPrintLabel_ok_err (ParseFloat : String → Option Float64) (ctx : Nat)
    (prevRate : Float64) (config : Config) (w : World) (v : Float64)
    (h : sampleOf ParseFloat (w.fetchResult w.fetches) = Except.ok v) :
    (fetchAndPrintLabel ParseFloat ctx prevRate config w).err = none := by
  rw [fetchAndPrintLabel_ok ParseFloat ctx prevRate config w v h]; split <;> rfl

/-- C5. On a context that is never cancelled, fetchAndPrintLabelWithRetry
makes at most 3 fetch attempts; if attempt k+1 (k < 3) is the first to
succeed it returns nil after exactly k+1 attempts; if all 3 attempts fail it
returns, after exactly 3 attempts, the exhaustion error that wraps the error
of the third attempt, with the configuration and the previous rate unchanged;
and it never touches the session: no context is cancelled or created, no
process is killed, and the registries are as before. -/
theorem fetchAndPrintLabelWithRetry_spec (ParseFloat : String → Option Float64) (ctx : Nat)
    (prevRate : Float64) (config : Config) (w : World) (hctx : ∀ n, w.ctxDone n = false) :
    ((fetchAndPrintLabelWithRetry ParseFloat ctx prevRate config w).world.fetches ≤ w.fetches + 3) ∧
    (∀ k, k < 3 →
      (∀ j, j < k → ∃ e, sampleOf ParseFloat (w.fetchResult (w.fetches + j)) = Except.error e) →
      (∃ v, sampleOf ParseFloat (w.fetchResult (w.fetches + k)) = Except.ok v) →
      (fetchAndPrintLabelWithRetry ParseFloat ctx prevRate config w).err = none ∧
      (fetchAndPrintLabelWithRetry ParseFloat ctx prevRate config w).world.fetches =
        w.fetches + (k + 1)) ∧
    (∀ e0 e1 e2, sampleOf ParseFloat (w.fetchResult w.fetches) = Except.error e0 →
      sampleOf ParseFloat (w.fetchResult (w.fetches + 1)) = Except.error e1 →
      sampleOf ParseFloat (w.fetchResult (w.fetches + 2)) = Except.error e2 →
      (fetchAndPrintLabelWithRetry ParseFloat ctx prevRate config w).err =
        some (GoError.fetchExhausted 3 e2) ∧
      (fetchAndPrintLabelWithRetry ParseFloat ctx prevRate config w).world.fetches = w.fetches + 3 ∧
      (fetchAndPrintLabelWithRetry ParseFloat ctx prevRate config w).config = config ∧
      (fetchAndPrintLabelWithRetry ParseFloat ctx prevRate config w).prevRate = prevRate) ∧
    Step Event.isSampling w (fetchAndPrintLabelWithRetry ParseFloat ctx prevRate config w).world ∧
    (fetchAndPrintLabelWithRetry ParseFloat ctx prevRate config w).world.trace.filter Event.isSession =
      w.trace.filter Event.isSession := by
  obtain ⟨hstep, hle⟩ := fetchRetryLoop_step ParseFloat ctx 3 5000 3 0 none prevRate config w
  refine ⟨hle, ?_, ?_, hstep, hstep.filter_eq Event.isSession
    (by intro e he; simpa [Event.isSampling] using he)⟩
  · intro k hk hfail hgood
    obtain ⟨v, hv⟩ := hgood
    have hk3 : k = 0 ∨ k = 1 ∨ k = 2 := by omega
    rcases hk3 with rfl | rfl | rfl
    · have hr : fetchAndPrintLabelWithRetry ParseFloat ctx prevRate config w =
          fetchAndPrintLabel ParseFloat ctx prevRate config w :=
        fetchRetryLoop_ok_round ParseFloat ctx 3 5000 2 0 none prevRate config w v hv
      rw [hr]
      exact ⟨fetchAndPrintLabel_ok_err ParseFloat ctx prevRate config w v hv,
        (fetchAndPrintLabel_step ParseFloat ctx prevRate config w).2.1⟩
    · obtain ⟨e0, he0⟩ := hfail 0 (by omega)
      have hr0 : fetchAndPrintLabelWithRetry ParseFloat ctx prevRate config w =
          fetchRetryLoop ParseFloat ctx 3 5000 2 1 (some e0) prevRate config
            (w.afterFailedAttempt ctx 1 e0 5000) :=
        fetchRetryLoop_fail_round ParseFloat ctx 3 5000 2 0 none prevRate config w e0 he0 (hctx _)
      have hr1 := fetchRetryLoop_ok_round ParseFloat ctx 3 5000 1 1 (some e0) prevRate config
        (w.afterFailedAttempt ctx 1 e0 5000) v hv
      rw [hr0, hr1]
      exact ⟨fetchAndPrintLabel_ok_err ParseFloat ctx prevRate config _ v hv,
        (fetchAndPrintLabel_step ParseFloat ctx prevRate config _).2.1⟩
    · obtain ⟨e0, he0⟩ := hfail 0 (by omega)
      obtain ⟨e1, he1⟩ := hfail 1 (by omega)
      have hr0 : fetchAndPrintLabelWithRetry ParseFloat ctx prevRate config w =
          fetchRetryLoop ParseFloat ctx 3 5000 2 1 (some e0) prevRate config
            (w.afterFailedAttempt ctx 1 e0 5000) :=
        fetchRetryLoop_fail_round ParseFloat ctx 3 5000 2 0 none prevRate config w e0 he0 (hctx _)
      have hr1 : fetchRetryLoop ParseFloat ctx 3 5000 2 1 (some e0) prevRate config
            (w.afterFailedAttempt ctx 1 e0 5000) =
          fetchRetryLoop ParseFloat ctx 3 5000 1 2 (some e1) prevRate config
            ((w.afterFailedAttempt ctx 1 e0 5000).afterFailedAttempt ctx 2 e1 5000) :=
        fetchRetryLoop_fail_round ParseFloat ctx 3 5000 1 1 (some e0) prevRate config
          (w.afterFailedAttempt ctx 1 e0 5000) e1 he1 (hctx _)
      have hr2 := fetchRetryLoop_ok_round ParseFloat ctx 3 5000 0 2 (some e1) prevRate config
        ((w.afterFailedAttempt ctx 1 e0 5000).afterFailedAttempt ctx 2 e1 5000) v hv
      rw [hr0, hr1, hr2]
      exact ⟨fetchAndPrintLabel_ok_err ParseFloat ctx prevRate config _ v hv,
        (fetchAndPrintLabel_step ParseFloat ctx prevRate config _).2.1⟩
  · intro e0 e1 e2 he0 he1 he2
    have hr0 : fetchAndPrintLabelWithRetry ParseFloat ctx prevRate config w =
        fetchRetryLoop ParseFloat ctx 3 5000 2 1 (some e0) prevRate config
          (w.afterFailedAttempt ctx 1 e0 5000) :=
      fetchRetryLoop_fail_round ParseFloat ctx 3 5000 2 0 none prevRate config w e0 he0 (hctx _)
    have hr1 : fetchRetryLoop ParseFloat ctx 3 5000 2 1 (some e0) prevRate config
          (w.afterFailedAttempt ctx 1 e0 5000) =
        fetchRetryLoop ParseFloat ctx 3 5000 1 2 (some e1) prevRate config
          ((w.afterFailedAttempt ctx 1 e0 5000).afterFailedAttempt ctx 2 e1 5000) :=
      fetchRetryLoop_fail_round ParseFloat ctx 3 5000 1 1 (some e0) prevRate config
        (w.afterFailedAttempt ctx 1 e0 5000) e1 he1 (hctx _)
    have hr2 : fetchRetryLoop ParseFloat ctx 3 5000 1 2 (some e1) prevRate config
          ((w.afterFailedAttempt ctx 1 e0 5000).afterFailedAttempt ctx 2 e1 5000) =
        fetchRetryLoop ParseFloat ctx 3 5000 0 3 (some e2) prevRate config
          (((w.afterFailedAttempt ctx 1 e0 5000).afterFailedAttempt ctx 2 e1 5000).afterFailedAttempt
            ctx 3 e2 5000) :=
      fetchRetryLoop_fail_round ParseFloat ctx 3 5000 0 2 (some e1) prevRate config
        ((w.afterFailedAttempt ctx 1 e0 5000).afterFailedAttempt ctx 2 e1 5000) e2 he2 (hctx _)
    rw [hr0, hr1, hr2]
    exact ⟨rfl, rfl, rfl, rfl⟩

/-- Witness of C5: the second attempt is the first to succeed. -/
theorem fetchAndPrintLabelWithRetry_spec_witness :
    (∀ n, { exampleWorld ["SGD 1.00 = MYR abc", "SGD 1.00 = MYR 2.70"] with
        fetches := 0 }.ctxDone n = false) ∧
    (fetchAndPrintLabelWithRetry parseFloatDecimal 0 Float64.zero exampleConfig
      (exampleWorld ["SGD 1.00 = MYR abc", "SGD 1.00 = MYR 2.70"])).err = none ∧
    (fetchAndPrintLabelWithRetry parseFloatDecimal 0 Float64.zero exampleConfig
      (exampleWorld ["SGD 1.00 = MYR abc", "SGD 1.00 = MYR 2.70"])).world.fetches = 0 + (1 + 1) :=
  ⟨fun _ => rfl,
   (fetchAndPrintLabelWithRetry_spec parseFloatDecimal 0 Float64.zero exampleConfig
      (exampleWorld ["SGD 1.00 = MYR abc", "SGD 1.00 = MYR 2.70"]) (fun _ => rfl)).2.1 1 (by decide)
      (by
        intro j hj
        have : j = 0 := by omega
        subst this
        exact ⟨GoError.parsingRate (GoError.numError "abc"), by decide⟩)
      ⟨Float64.ofDecimal 270 2, by decide⟩⟩

/-! ## C6: retry exhaustion in startProgram -/

/-- An exhausted call of fetchAndPrintLabelWithRetry, in full. -/
theorem fetchAndPrintLabelWithRetry_exhausted (ParseFloat : String → Option Float64) (ctx : Nat)
    (prevRate : Float64) (config : Config) (w : World) (e0 e1 e2 : GoError)
    (hctx : ∀ n, w.selects ≤ n → w.ctxDone n = false)
    (he0 : sampleOf ParseFloat (w.fetchResult w.fetches) = Except.error e0)
    (he1 : sampleOf ParseFloat (w.fetchResult (w.fetches + 1)) = Except.error e1)
    (he2 : sampleOf ParseFloat (w.fetchResult (w.fetches + 2)) = Except.error e2) :
    fetchAndPrintLabelWithRetry ParseFloat ctx prevRate config w =
      { err := some (GoError.fetchExhausted 3 e2), prevRate := prevRate, config := config,
        world := w.afterExhaustion ctx e0 e1 e2 } := by
  have hr0 : fetchAndPrintLabelWithRetry ParseFloat ctx prevRate config w =
      fetchRetryLoop ParseFloat ctx 3 5000 2 1 (some e0) prevRate config
        (w.afterFailedAttempt ctx 1 e0 5000) :=
    fetchRetryLoop_fail_round ParseFloat ctx 3 5000 2 0 none prevRate config w e0 he0
      (hctx w.selects (Nat.le_refl _))
  have hr1 : fetchRetryLoop ParseFloat ctx 3 5000 2 1 (some e0) prevRate config
        (w.afterFailedAttempt ctx 1 e0 5000) =
      fetchRetryLoop ParseFloat ctx 3 5000 1 2 (some e1) prevRate config
        ((w.afterFailedAttempt ctx 1 e0 5000).afterFailedAttempt ctx 2 e1 5000) :=
    fetchRetryLoop_fail_round ParseFloat ctx 3 5000 1 1 (some e0) prevRate config
      (w.afterFailedAttempt ctx 1 e0 5000) e1 he1 (hctx (w.selects + 1) (by omega))
  have hr2 : fetchRetryLoop ParseFloat ctx 3 5000 1 2 (some e1) prevRate config
        ((w.afterFailedAttempt ctx 1 e0 5000).afterFailedAttempt ctx 2 e1 5000) =
      fetchRetryLoop ParseFloat ctx 3 5000 0 3 (some e2) prevRate config
        (w.afterExhaustion ctx e0 e1 e2) :=
    fetchRetryLoop_fail_round ParseFloat ctx 3 5000 0 2 (some e1) prevRate config
      ((w.afterFailedAttempt ctx 1 e0 5000).afterFailedAttempt ctx 2 e1 5000) e2 he2
      (hctx (w.selects + 1 + 1) (by omega))
  rw [hr0, hr1, hr2]
  rfl

/-- Every call of fetchAndPrintLabel starts with a fetch on its context. -/
theorem fetchAndPrintLabel_head (ParseFloat : String → Option Float64) (ctx : Nat)
    (prevRate : Float64) (config : Config) (w : World) :
    Step Event.isSampling (w.runFetch ctx).2 (fetchAndPrintLabel ParseFloat ctx prevRate config w).world := by
  cases hs : sampleOf ParseFloat (w.fetchResult w.fetches) with
  | error err =>
    rw [fetchAndPrintLabel_fail ParseFloat ctx prevRate config w err hs]
    exact Step.refl _ _
  | ok v =>
    rw [fetchAndPrintLabel_ok ParseFloat ctx prevRate config w v hs]
    have hprint := Step.emit (P := Event.isSampling) (w.runFetch ctx).2
      (Event.printColoredRate v prevRate) rfl
    split
    · exact hprint.trans (sendWhatsAppNotification_sampling _ _ _)
    · exact hprint

/-- Every call of fetchAndPrintLabelWithRetry starts with a fetch on its context. -/
theorem fetchAndPrintLabelWithRetry_head (ParseFloat : String → Option Float64) (ctx : Nat)
    (prevRate : Float64) (config : Config) (w : World) :
    Step Event.isSampling (w.runFetch ctx).2
      (fetchAndPrintLabelWithRetry ParseFloat ctx prevRate config w).world := by
  have h1 := fetchAndPrintLabel_head ParseFloat ctx prevRate config w
  have hr : fetchAndPrintLabelWithRetry ParseFloat ctx prevRate config w =
      fetchRetryLoop ParseFloat ctx 3 5000 (2 + 1) 0 none prevRate config w := rfl
  rw [hr, fetchRetryLoop_succ]
  cases herr : (fetchAndPrintLabel ParseFloat ctx prevRate config w).err with
  | none => exact h1
  | some err =>
    simp only
    have h3 := Step.logf (P := Event.isSampling)
      (fetchAndPrintLabel ParseFloat ctx prevRate config w).world
      (LogMsg.fetchAttemptFailed (0 + 1) err) rfl
    have h4 := Step.selectDone (P := Event.isSampling)
      ((fetchAndPrintLabel ParseFloat ctx prevRate config w).world.logf
        (LogMsg.fetchAttemptFailed (0 + 1) err)) 5000 rfl
    generalize ((fetchAndPrintLabel ParseFloat ctx prevRate config w).world.logf
        (LogMsg.fetchAttemptFailed (0 + 1) err)).selectDone 5000 = r at h4
    obtain ⟨b, w2⟩ := r
    cases b
    · exact ((h1.trans h3).trans h4).trans
        (fetchRetryLoop_step ParseFloat ctx 3 5000 2 (0 + 1) (some err) _ _ w2).1
    · exact (h1.trans h3).trans h4

/-- What createChromeContext does: one new context, numbered by the count of
contexts made so far, and no other action on the session. -/
theorem createChromeContext_spec (w : World) :
    (createChromeContext w).1 = w.contextsCreated ∧
    (createChromeContext w).2.contextsCreated = w.contextsCreated + 1 ∧
    (createChromeContext w).2.fetchResult = w.fetchResult ∧
    (createChromeContext w).2.fetches = w.fetches ∧
    (createChromeContext w).2.ctxDone = w.ctxDone ∧
    ∃ l, (createChromeContext w).2.trace =
        w.trace ++ Event.createChromeContext w.contextsCreated :: l ∧
      ∀ e ∈ l, e.isSession = false := by
  cases h : w.chromeStart w.contextsCreated with
  | startFailed =>
    simp only [createChromeContext, h]
    exact ⟨trivial, rfl, rfl, rfl, rfl, [Event.log LogMsg.failedToStartChrome],
      by simp [World.logf, World.emit], by simp [Event.isSession]⟩
  | pidLookupFailed =>
    simp only [createChromeContext, h]
    exact ⟨trivial, rfl, rfl, rfl, rfl,
      [Event.sleep 1000, Event.log LogMsg.failedToGetPID],
      by simp [World.logf, World.emit], by simp [Event.isSession]⟩
  | found pids =>
    simp only [createChromeContext, h]
    exact ⟨trivial, rfl, rfl, rfl, rfl, [Event.sleep 1000],
      by simp [World.emit], by simp [Event.isSession]⟩

theorem loopStep_ticker (ParseFloat : String → Option Float64) (st : LoopState) :
    loopStep ParseFloat Select.ticker st =
      match (fetchAndPrintLabelWithRetry ParseFloat st.ctx st.prevRate st.config st.world).err with
      | none =>
        ({ ctx := st.ctx,
           prevRate := (fetchAndPrintLabelWithRetry ParseFloat st.ctx st.prevRate st.config st.world).prevRate,
           config := (fetchAndPrintLabelWithRetry ParseFloat st.ctx st.prevRate st.config st.world).config,
           world := (fetchAndPrintLabelWithRetry ParseFloat st.ctx st.prevRate st.config st.world).world },
          false)
      | some err =>
        ({ ctx := (createChromeContext
              (((fetchAndPrintLabelWithRetry ParseFloat st.ctx st.prevRate st.config st.world).world.logf
                (LogMsg.errorAfterRetries err)).emit (Event.cancel st.ctx))).1,
           prevRate := (fetchAndPrintLabelWithRetry ParseFloat st.ctx st.prevRate st.config st.world).prevRate,
           config := (fetchAndPrintLabelWithRetry ParseFloat st.ctx st.prevRate st.config st.world).config,
           world := (createChromeContext
              (((fetchAndPrintLabelWithRetry ParseFloat st.ctx st.prevRate st.config st.world).world.logf
                (LogMsg.errorAfterRetries err)).emit (Event.cancel st.ctx))).2 },
          false) := by
  simp only [loopStep]

/-- A ticker round never returns and starts with a fetch on the current context. -/
theorem loopStep_ticker_head (ParseFloat : String → Option Float64) (st : LoopState) :
    (loopStep ParseFloat Select.ticker st).2 = false ∧
    ∃ l, (loopStep ParseFloat Select.ticker st).1.world.trace =
      st.world.trace ++ Event.fetch st.ctx :: l := by
  obtain ⟨l1, hl1, _⟩ :=
    (fetchAndPrintLabelWithRetry_head ParseFloat st.ctx st.prevRate st.config st.world).trace
  have hl1b : (fetchAndPrintLabelWithRetry ParseFloat st.ctx st.prevRate st.config st.world).world.trace =
      st.world.trace ++ Event.fetch st.ctx :: l1 := by
    rw [hl1]; simp [World.runFetch]
  rw [loopStep_ticker]
  cases herr : (fetchAndPrintLabelWithRetry ParseFloat st.ctx st.prevRate st.config st.world).err with
  | none => exact ⟨rfl, l1, hl1b⟩
  | some err =>
    simp only
    obtain ⟨_, _, _, _, _, l2, hl2, _⟩ := createChromeContext_spec
      (((fetchAndPrintLabelWithRetry ParseFloat st.ctx st.prevRate st.config st.world).world.logf
        (LogMsg.errorAfterRetries err)).emit (Event.cancel st.ctx))
    refine ⟨trivial, l1 ++ [Event.log (LogMsg.errorAfterRetries err), Event.cancel st.ctx] ++
      Event.createChromeContext ((fetchAndPrintLabelWithRetry ParseFloat st.ctx st.prevRate st.config
        st.world).world.contextsCreated) :: l2, ?_⟩
    rw [hl2]
    simp [World.logf, World.emit, hl1b]

/-- C6, counterexample. The initial sampling cycle of startProgram can end
with 3 consecutive fetch failures without any recreation: with a browser
whose fetches all fail, startProgram arrives in its loop after 3 fetches and
the logged exhaustion error, and the only action on the session so far is the
creation of the first context; nothing was cancelled and no second context
was made. -/
theorem initial_exhaustion_no_recreation :
    (startProgram parseFloatDecimal [] Config.zero startWorld).map
        (fun r => (r.2.1.fetches, r.2.1.trace.filter Event.isSession, r.2.2)) =
      some (3, [Event.createChromeContext 0], false) ∧
    (startProgram parseFloatDecimal [] Config.zero startWorld).map
        (fun r => decide (Event.log (LogMsg.initialFetchError (GoError.fetchExhausted 3
          (GoError.fetchingLabel (GoError.chromedp "timeout")))) ∈ r.2.1.trace)) = some true := by
  decide

theorem startProgramInit_session (ParseFloat : String → Option Float64) (config : Config)
    (w : World) :
    (startProgramInit ParseFloat config w).ctx = w.contextsCreated ∧
    (startProgramInit ParseFloat config w).world.contextsCreated = w.contextsCreated + 1 ∧
    (startProgramInit ParseFloat config w).world.trace.filter Event.isSession =
      w.trace.filter Event.isSession ++ [Event.createChromeContext w.contextsCreated] := by
  obtain ⟨h1, h2, _, _, _, l, hl, hp⟩ := createChromeContext_spec w
  have hfilter : (createChromeContext w).2.trace.filter Event.isSession =
      w.trace.filter Event.isSession ++ [Event.createChromeContext w.contextsCreated] := by
    rw [hl, List.filter_append, List.filter_cons]
    have : l.filter Event.isSession = [] := by
      rw [List.filter_eq_nil_iff]; intro e he; simp [hp e he]
    simp [this, Event.isSession]
  have hstep := fetchRetryLoop_step ParseFloat (createChromeContext w).1 3 5000 3 0 none
    Float64.zero config (createChromeContext w).2
  have hstep1 : Step Event.isSampling (createChromeContext w).2
      (fetchAndPrintLabelWithRetry ParseFloat (createChromeContext w).1 Float64.zero config
        (createChromeContext w).2).world := hstep.1
  have hsess : ∀ e, Event.isSampling e = true → Event.isSession e = false := by
    intro e he; simpa [Event.isSampling] using he
  simp only [startProgramInit]
  cases herr : (fetchAndPrintLabelWithRetry ParseFloat (createChromeContext w).1 Float64.zero config
      (createChromeContext w).2).err with
  | none =>
    simp only
    exact ⟨h1, hstep1.contextsCreated.trans h2,
      (hstep1.filter_eq Event.isSession hsess).trans hfilter⟩
  | some err =>
    simp only
    have hstep2 := hstep1.trans (Step.logf (P := Event.isSampling) _ (LogMsg.initialFetchError err) rfl)
    exact ⟨h1, hstep2.contextsCreated.trans h2,
      (hstep2.filter_eq Event.isSession hsess).trans hfilter⟩

/-- C6, amended. In the loop of startProgram, whenever a sampling cycle
started by the ticker ends with 3 consecutive fetch failures (retry
exhaustion: none of the waits of this cycle finds the context done, whatever
happened in earlier cycles), exactly one session recreation is issued for
that cycle: the current context is cancelled once and
createChromeContext is called once, these being the only actions on the
session, and the new context becomes the current one; the round does not
return, the loop goes on with the rounds that follow, and the next ticker
round samples again, starting with a fetch on the new context.  The initial
sampling cycle made before the loop issues no recreation, whatever its
outcome: up to the entry into the loop the only action on the session is the
creation of the first context. -/
theorem ticker_exhaustion_recreates_once (ParseFloat : String → Option Float64) (st : LoopState)
    (e0 e1 e2 : GoError) (hctx : ∀ n, st.world.selects ≤ n → st.world.ctxDone n = false)
    (he0 : sampleOf ParseFloat (st.world.fetchResult st.world.fetches) = Except.error e0)
    (he1 : sampleOf ParseFloat (st.world.fetchResult (st.world.fetches + 1)) = Except.error e1)
    (he2 : sampleOf ParseFloat (st.world.fetchResult (st.world.fetches + 2)) = Except.error e2) :
    (loopStep ParseFloat Select.ticker st).2 = false ∧
    (loopStep ParseFloat Select.ticker st).1.ctx = st.world.contextsCreated ∧
    (loopStep ParseFloat Select.ticker st).1.world.contextsCreated = st.world.contextsCreated + 1 ∧
    (loopStep ParseFloat Select.ticker st).1.world.fetches = st.world.fetches + 3 ∧
    (st.world.since (loopStep ParseFloat Select.ticker st).1.world).filter Event.isSession =
      [Event.cancel st.ctx, Event.createChromeContext st.world.contextsCreated] ∧
    (loopStep ParseFloat Select.ticker st).1.config = st.config ∧
    (∀ rounds, startProgramLoop ParseFloat (Select.ticker :: rounds) st =
      startProgramLoop ParseFloat rounds (loopStep ParseFloat Select.ticker st).1) ∧
    (∃ l, (loopStep ParseFloat Select.ticker (loopStep ParseFloat Select.ticker st).1).1.world.trace =
      (loopStep ParseFloat Select.ticker st).1.world.trace ++
        Event.fetch st.world.contextsCreated :: l) ∧
    (∀ (config : Config) (w : World),
      (startProgramInit ParseFloat config w).world.trace.filter Event.isSession =
        w.trace.filter Event.isSession ++ [Event.createChromeContext w.contextsCreated]) := by
  have hex := fetchAndPrintLabelWithRetry_exhausted ParseFloat st.ctx st.prevRate st.config st.world
    e0 e1 e2 hctx he0 he1 he2
  have hstep : loopStep ParseFloat Select.ticker st =
      ({ ctx := (createChromeContext
            (((st.world.afterExhaustion st.ctx e0 e1 e2).logf
              (LogMsg.errorAfterRetries (GoError.fetchExhausted 3 e2))).emit (Event.cancel st.ctx))).1,
         prevRate := st.prevRate, config := st.config,
         world := (createChromeContext
            (((st.world.afterExhaustion st.ctx e0 e1 e2).logf
              (LogMsg.errorAfterRetries (GoError.fetchExhausted 3 e2))).emit (Event.cancel st.ctx))).2 },
        false) := by
    rw [loopStep_ticker, hex]
  obtain ⟨h1, h2, _, h4, _, l, hl, hp⟩ := createChromeContext_spec
    (((st.world.afterExhaustion st.ctx e0 e1 e2).logf
      (LogMsg.errorAfterRetries (GoError.fetchExhausted 3 e2))).emit (Event.cancel st.ctx))
  have hctx1 : (loopStep ParseFloat Select.ticker st).1.ctx = st.world.contextsCreated := by
    rw [hstep]; exact h1
  have hnot : (loopStep ParseFloat Select.ticker st).2 = false := by rw [hstep]
  refine ⟨hnot, hctx1, ?_, ?_, ?_, ?_, ?_, ?_, fun config w => (startProgramInit_session ParseFloat config w).2.2⟩
  · rw [hstep]; exact h2
  · rw [hstep]; exact h4
  · have htrace : (loopStep ParseFloat Select.ticker st).1.world.trace = st.world.trace ++
        ([Event.fetch st.ctx, Event.log (LogMsg.fetchAttemptFailed 1 e0), Event.sleep 5000,
          Event.fetch st.ctx, Event.log (LogMsg.fetchAttemptFailed 2 e1), Event.sleep 5000,
          Event.fetch st.ctx, Event.log (LogMsg.fetchAttemptFailed 3 e2), Event.sleep 5000,
          Event.log (LogMsg.errorAfterRetries (GoError.fetchExhausted 3 e2)),
          Event.cancel st.ctx, Event.createChromeContext st.world.contextsCreated] ++ l) := by
      rw [hstep]
      simp only
      rw [hl]
      simp [World.afterExhaustion, World.afterFailedAttempt, World.logf, World.emit]
    rw [World.since_of_trace htrace, List.filter_append]
    have : l.filter Event.isSession = [] := by
      rw [List.filter_eq_nil_iff]; intro e he; simp [hp e he]
    rw [this]
    simp [Event.isSession]
  · rw [hstep]
  · intro rounds
    have hpair : loopStep ParseFloat Select.ticker st =
        ((loopStep ParseFloat Select.ticker st).1, false) := by
      rw [← hnot]
    simp only [startProgramLoop]
    rw [hpair]
  · obtain ⟨_, l2, hl2⟩ := loopStep_ticker_head ParseFloat (loopStep ParseFloat Select.ticker st).1
    rw [hctx1] at hl2
    exact ⟨l2, hl2⟩

/-- Witness of C6: the fetches all fail and the first wait of the initial
cycle is cut short by the context; the ticker round that follows is
exhausted and recreates the context. -/
theorem ticker_exhaustion_recreates_once_witness :
    cutShortWorld.ctxDone 0 = true ∧
    (startProgramInit parseFloatDecimal exampleConfig cutShortWorld).world.selects = 1 ∧
    (loopStep parseFloatDecimal Select.ticker
      (startProgramInit parseFloatDecimal exampleConfig cutShortWorld)).2 = false ∧
    (loopStep parseFloatDecimal Select.ticker
      (startProgramInit parseFloatDecimal exampleConfig cutShortWorld)).1.ctx = 1 :=
  ⟨rfl, rfl,
   (ticker_exhaustion_recreates_once parseFloatDecimal
      (startProgramInit parseFloatDecimal exampleConfig cutShortWorld)
      (GoError.fetchingLabel (GoError.chromedp "timeout"))
      (GoError.fetchingLabel (GoError.chromedp "timeout"))
      (GoError.fetchingLabel (GoError.chromedp "timeout"))
      (by
        intro n hn
        have h1 : 1 ≤ n := hn
        show decide (n = 0) = false
        simp only [decide_eq_false_iff_not]
        omega)
      (by decide) (by decide) (by decide)).1,
   (ticker_exhaustion_recreates_once parseFloatDecimal
      (startProgramInit parseFloatDecimal exampleConfig cutShortWorld)
      (GoError.fetchingLabel (GoError.chromedp "timeout"))
      (GoError.fetchingLabel (GoError.chromedp "timeout"))
      (GoError.fetchingLabel (GoError.chromedp "timeout"))
      (by
        intro n hn
        have h1 : 1 ≤ n := hn
        show decide (n = 0) = false
        simp only [decide_eq_false_iff_not]
        omega)
      (by decide) (by decide) (by decide)).2.1⟩

/-! ## C11: the terminal rounds of startProgram -/

theorem cancelAll_spec (l : List Nat) : ∀ w : World,
    cancelAll l w = { w with trace := w.trace ++ l.map Event.cancel } := by
  induction l with
  | nil => intro w; simp [cancelAll]
  | cons ctx rest ih =>
    intro w
    rw [cancelAll, ih]
    simp [World.emit]

theorem killProcesses_spec (l : List Nat) : ∀ w : World,
    killProcesses l w = { w with trace := w.trace ++ killTrace w.killOk l } := by
  induction l with
  | nil => intro w; simp [killProcesses, killTrace]
  | cons pid rest ih =>
    intro w
    rw [killProcesses, ih]
    cases hk : w.killOk pid <;> simp [World.logf, World.emit, killTrace, hk]

theorem killTrace_spec (killOk : Nat → Bool) (l : List Nat) :
    (killTrace killOk l).filter Event.isSession = l.map Event.kill ∧
    cancelsIn (killTrace killOk l) = [] ∧ killAllCount (killTrace killOk l) = 0 := by
  induction l with
  | nil => exact ⟨rfl, rfl, rfl⟩
  | cons pid rest ih =>
    obtain ⟨h1, h2, h3⟩ := ih
    unfold cancelsIn at h2 ⊢
    unfold killAllCount at h3 ⊢
    simp only [killTrace, List.filter_append, List.filterMap_append, List.count_append, h1, h2, h3]
    cases killOk pid <;> simp [Event.isSession]

theorem killAllChromeInstances_eq (w : World) :
    killAllChromeInstances w =
      { w with chromeContexts := [], chromeProcesses := [],
               trace := w.trace ++ ([Event.log LogMsg.killAllBegin] ++
                 w.chromeContexts.map Event.cancel ++ killTrace w.killOk w.chromeProcesses ++
                 [Event.log LogMsg.killAllEnd]) } := by
  unfold killAllChromeInstances
  simp only
  rw [cancelAll_spec, killProcesses_spec]
  simp [World.logf, World.emit]

/-- What killAllChromeInstances does: one run, which cancels the registered
contexts, kills the registered processes and empties both registries. -/
theorem killAllChromeInstances_spec (w : World) :
    (killAllChromeInstances w).chromeContexts = [] ∧
    (killAllChromeInstances w).chromeProcesses = [] ∧
    ∃ tr, (killAllChromeInstances w).trace = w.trace ++ tr ∧ killAllCount tr = 1 ∧
      cancelsIn tr = w.chromeContexts ∧
      tr.filter Event.isSession =
        w.chromeContexts.map Event.cancel ++ w.chromeProcesses.map Event.kill := by
  obtain ⟨h1, h2, h3⟩ := killTrace_spec w.killOk w.chromeProcesses
  have hcancel : (w.chromeContexts.map Event.cancel).filter Event.isSession =
      w.chromeContexts.map Event.cancel := by
    rw [List.filter_eq_self]; intro e he
    obtain ⟨c, _, rfl⟩ := List.mem_map.mp he
    rfl
  have hcount : (w.chromeContexts.map Event.cancel).count (Event.log LogMsg.killAllBegin) = 0 := by
    rw [List.count_eq_zero]; simp
  rw [killAllChromeInstances_eq]
  refine ⟨rfl, rfl, _, rfl, ?_, ?_, ?_⟩
  · unfold killAllCount at h3 ⊢
    simp only [List.count_append, h3, hcount]
    simp
  · have hmap : ∀ l : List Nat, cancelsIn (l.map Event.cancel) = l := by
      intro l
      induction l with
      | nil => rfl
      | cons c rest ih => simpa [cancelsIn] using ih
    have happ : ∀ a b : List Event, cancelsIn (a ++ b) = cancelsIn a ++ cancelsIn b := by
      intro a b; simp [cancelsIn]
    rw [happ, happ, happ, h2, hmap]
    simp [cancelsIn]
  · simp only [List.filter_append, h1, hcancel]
    simp [Event.isSession]

/-- The teardown written in the restart and interrupt cases: a logger line,
the cancel of the current context, killAllChromeInstances. -/
theorem teardown_spec (w : World) (m : LogMsg) (ctx : Nat) (hm : m ≠ LogMsg.killAllBegin) :
    (killAllChromeInstances ((w.logf m).emit (Event.cancel ctx))).chromeContexts = [] ∧
    (killAllChromeInstances ((w.logf m).emit (Event.cancel ctx))).chromeProcesses = [] ∧
    killAllCount (w.since (killAllChromeInstances ((w.logf m).emit (Event.cancel ctx)))) = 1 ∧
    cancelsIn (w.since (killAllChromeInstances ((w.logf m).emit (Event.cancel ctx)))) =
      ctx :: w.chromeContexts ∧
    (w.since (killAllChromeInstances ((w.logf m).emit (Event.cancel ctx)))).filter Event.isSession =
      Event.cancel ctx :: (w.chromeContexts.map Event.cancel ++ w.chromeProcesses.map Event.kill) := by
  obtain ⟨h1, h2, tr, h3, h4, h5, h6⟩ :=
    killAllChromeInstances_spec ((w.logf m).emit (Event.cancel ctx))
  have htrace : (killAllChromeInstances ((w.logf m).emit (Event.cancel ctx))).trace =
      w.trace ++ ([Event.log m, Event.cancel ctx] ++ tr) := by
    rw [h3]; simp [World.logf, World.emit]
  rw [World.since_of_trace htrace]
  refine ⟨h1, h2, ?_, ?_, ?_⟩
  · unfold killAllCount at h4 ⊢
    rw [List.count_append, h4]
    have : [Event.log m, Event.cancel ctx].count (Event.log LogMsg.killAllBegin) = 0 := by
      rw [List.count_eq_zero]
      simp only [List.mem_cons, List.mem_singleton, not_or, List.not_mem_nil, or_false]
      exact ⟨fun h => hm (by injection h with h; exact h.symm), fun h => by cases h⟩
    rw [this]
  · have happ : ∀ a b : List Event, cancelsIn (a ++ b) = cancelsIn a ++ cancelsIn b := by
      intro a b; simp [cancelsIn]
    rw [happ, h5]
    simp [cancelsIn, World.logf, World.emit]
  · rw [List.filter_append, h6]
    simp [Event.isSession, World.logf, World.emit]

/-- C11, as the code behaves. On a restart request and on an interrupt signal
the round of the startProgram loop cancels the current session context once,
runs killAllChromeInstances once and leaves the registries of contexts and of
helper processes empty, then returns.  On completion of the session context
the round returns at once: it executes no teardown at all, so the state,
registries included, is exactly as before.  When startProgram returns, its
deferred cancel is that of the first context.  At the failing input (every
fetch fails, Chrome is found with process 4242, a ticker round and then the
completion of the context) startProgram returns with killAllChromeInstances
never run, the registry of processes holding 4242 twice, and no cancel of the
current context 1: the only cancels are two of context 0. -/
theorem terminal_rounds_teardown (ParseFloat : String → Option Float64) (st : LoopState) :
    ((loopStep ParseFloat Select.restart st).2 = true ∧
      (loopStep ParseFloat Select.restart st).1.world.chromeContexts = [] ∧
      (loopStep ParseFloat Select.restart st).1.world.chromeProcesses = [] ∧
      killAllCount (st.world.since (loopStep ParseFloat Select.restart st).1.world) = 1 ∧
      cancelsIn (st.world.since (loopStep ParseFloat Select.restart st).1.world) =
        st.ctx :: st.world.chromeContexts ∧
      (st.world.since (loopStep ParseFloat Select.restart st).1.world).filter Event.isSession =
        Event.cancel st.ctx ::
          (st.world.chromeContexts.map Event.cancel ++ st.world.chromeProcesses.map Event.kill)) ∧
    ((loopStep ParseFloat Select.signal st).2 = true ∧
      (loopStep ParseFloat Select.signal st).1.world.chromeContexts = [] ∧
      (loopStep ParseFloat Select.signal st).1.world.chromeProcesses = [] ∧
      killAllCount (st.world.since (loopStep ParseFloat Select.signal st).1.world) = 1 ∧
      cancelsIn (st.world.since (loopStep ParseFloat Select.signal st).1.world) =
        st.ctx :: st.world.chromeContexts ∧
      (st.world.since (loopStep ParseFloat Select.signal st).1.world).filter Event.isSession =
        Event.cancel st.ctx ::
          (st.world.chromeContexts.map Event.cancel ++ st.world.chromeProcesses.map Event.kill)) ∧
    ((loopStep ParseFloat Select.ctxDone st).2 = true ∧
      (loopStep ParseFloat Select.ctxDone st).1.world.chromeProcesses = st.world.chromeProcesses ∧
      (loopStep ParseFloat Select.ctxDone st).1.world.chromeContexts = st.world.chromeContexts ∧
      (loopStep ParseFloat Select.ctxDone st).1.world.trace = st.world.trace) ∧
    (∀ (rounds : List Select) (config config1 : Config) (w w1 : World) (stEnd : LoopState),
      setupUserPreferences ParseFloat config w = some (config1, w1) →
      startProgramLoop ParseFloat rounds (startProgramInit ParseFloat config1 w1) = (stEnd, true) →
      startProgram ParseFloat rounds config w =
        some (stEnd.config,
          stEnd.world.emit (Event.cancel (startProgramInit ParseFloat config1 w1).ctx), true)) ∧
    (startProgram parseFloatDecimal [Select.ticker, Select.ctxDone] connectedConfig startWorld).map
      (fun r => (r.2.2, r.2.1.chromeProcesses, killAllCount r.2.1.trace, cancelsIn r.2.1.trace,
        r.2.1.contextsCreated)) = some (true, [4242, 4242], 0, [0, 0], 2) := by
  have hr := teardown_spec st.world LogMsg.restarting st.ctx (by decide)
  have hs := teardown_spec st.world LogMsg.interrupt st.ctx (by decide)
  refine ⟨⟨rfl, hr⟩, ⟨rfl, hs⟩, ⟨rfl, rfl, rfl, rfl⟩, ?_, by decide⟩
  intro rounds config config1 w w1 stEnd hsetup hloop
  simp only [startProgram, hsetup, hloop]

/-! ## C12: what a restart keeps -/

theorem readMinRate_keeps (ParseFloat : String → Option Float64) (config : Config)
    (lines : List String) : ∀ (w : World) (config1 : Config) (w1 : World),
    readMinRate ParseFloat config lines w = some (config1, w1) →
      config1.LastNotifiedRate = config.LastNotifiedRate ∧ config1.Connected = config.Connected := by
  induction lines with
  | nil => intro w config1 w1 h; simp [readMinRate] at h
  | cons input rest ih =>
    intro w config1 w1 h
    rw [readMinRate] at h
    cases hp : ParseFloat input with
    | none => rw [hp] at h; exact ih _ _ _ h
    | some v =>
      rw [hp] at h
      simp only [Option.some.injEq, Prod.mk.injEq] at h
      rw [← h.1]
      exact ⟨rfl, rfl⟩

theorem readMaxRate_keeps (ParseFloat : String → Option Float64) (config : Config)
    (lines : List String) : ∀ (w : World) (config1 : Config) (w1 : World),
    readMaxRate ParseFloat config lines w = some (config1, w1) →
      config1.LastNotifiedRate = config.LastNotifiedRate ∧ config1.Connected = config.Connected := by
  induction lines with
  | nil => intro w config1 w1 h; simp [readMaxRate] at h
  | cons input rest ih =>
    intro w config1 w1 h
    rw [readMaxRate] at h
    cases hp : ParseFloat input with
    | none => rw [hp] at h; exact ih _ _ _ h
    | some v =>
      rw [hp] at h
      simp only at h
      split at h
      · simp only [Option.some.injEq, Prod.mk.injEq] at h
        rw [← h.1]
        exact ⟨rfl, rfl⟩
      · exact ih _ _ _ h

theorem setupTarget_keeps (config : Config) (w : World) :
    (setupTarget config w).1.LastNotifiedRate = config.LastNotifiedRate ∧
    (setupTarget config w).1.Connected = config.Connected := by
  unfold setupTarget
  simp only
  split
  · split <;> exact ⟨rfl, rfl⟩
  · exact ⟨rfl, rfl⟩

/-- The configuration that setupUserPreferences leaves keeps LastNotifiedRate
and Connected: only the bounds and the target are written. -/
theorem setupUserPreferences_keeps (ParseFloat : String → Option Float64) (config : Config)
    (w : World) (config1 : Config) (w1 : World)
    (h : setupUserPreferences ParseFloat config w = some (config1, w1)) :
    config1.LastNotifiedRate = config.LastNotifiedRate ∧ config1.Connected = config.Connected := by
  unfold setupUserPreferences at h
  cases hmin : readMinRate ParseFloat config w.stdin w with
  | none => rw [hmin] at h; cases h
  | some r1 =>
    obtain ⟨c1, v1⟩ := r1
    rw [hmin] at h
    simp only at h
    cases hmax : readMaxRate ParseFloat c1 v1.stdin v1 with
    | none => rw [hmax] at h; cases h
    | some r2 =>
      obtain ⟨c2, v2⟩ := r2
      rw [hmax] at h
      simp only [Option.some.injEq] at h
      have k1 := readMinRate_keeps ParseFloat config w.stdin w c1 v1 hmin
      have k2 := readMaxRate_keeps ParseFloat c1 v1.stdin v1 c2 v2 hmax
      have k3 := setupTarget_keeps c2 v2
      rw [h] at k3
      exact ⟨k3.1.trans (k2.1.trans k1.1), k3.2.trans (k2.2.trans k1.2)⟩

theorem createChromeContext_notifyCount (w : World) :
    notifyCount (createChromeContext w).2.trace = notifyCount w.trace := by
  cases h : w.chromeStart w.contextsCreated <;>
    simp [createChromeContext, h, notifyCount, World.logf, World.emit, Event.isNotify]

/-- The initial fetch of startProgram when its first attempt succeeds with rate `v`. -/
theorem startProgramInit_first_sample (ParseFloat : String → Option Float64) (config : Config)
    (w : World) (v : Float64) (hv : sampleOf ParseFloat (w.fetchResult w.fetches) = Except.ok v) :
    notifyCount (startProgramInit ParseFloat config w).world.trace =
      notifyCount w.trace + (if shouldNotify v config = true then 1 else 0) ∧
    (startProgramInit ParseFloat config w).config =
      (if shouldNotify v config = true then { config with LastNotifiedRate := v } else config) := by
  obtain ⟨_, _, h3, h4, _, _⟩ := createChromeContext_spec w
  have hv2 : sampleOf ParseFloat
      ((createChromeContext w).2.fetchResult (createChromeContext w).2.fetches) = Except.ok v := by
    rw [h3, h4]; exact hv
  have hr : fetchAndPrintLabelWithRetry ParseFloat (createChromeContext w).1 Float64.zero config
        (createChromeContext w).2 =
      fetchAndPrintLabel ParseFloat (createChromeContext w).1 Float64.zero config
        (createChromeContext w).2 :=
    fetchRetryLoop_ok_round ParseFloat (createChromeContext w).1 3 5000 2 0 none Float64.zero config
      (createChromeContext w).2 v hv2
  have herr := fetchAndPrintLabel_ok_err ParseFloat (createChromeContext w).1 Float64.zero config
    (createChromeContext w).2 v hv2
  have hcount := fetchAndPrintLabel_notifyCount ParseFloat (createChromeContext w).1 Float64.zero
    config (createChromeContext w).2 v hv2
  have hcfg : (fetchAndPrintLabel ParseFloat (createChromeContext w).1 Float64.zero config
      (createChromeContext w).2).config =
      (if shouldNotify v config = true then { config with LastNotifiedRate := v } else config) := by
    rw [fetchAndPrintLabel_ok ParseFloat (createChromeContext w).1 Float64.zero config
      (createChromeContext w).2 v hv2]
    split <;> rfl
  simp only [startProgramInit]
  rw [hr]
  simp only [herr]
  rw [hcount, createChromeContext_notifyCount]
  exact ⟨rfl, hcfg⟩

/-- C12, counterexample. A restart does not reset LastNotifiedRate: the first
run notifies the out-of-range rate 3.00 and is left by a restart request;
when startProgram is entered again its first sample is 3.00 again, still out
of range, and it does not notify: one notification in all after two fetches,
and LastNotifiedRate is 3.00 throughout. -/
theorem restart_does_not_rearm :
    Float64.ge (Float64.ofDecimal 300 2) (Float64.ofDecimal 300 2) = true ∧
    (startProgram parseFloatDecimal [Select.restart] connectedConfig twoRunWorld).map
      (fun r => (r.1.LastNotifiedRate, notifyCount r.2.1.trace, r.2.1.fetches, r.2.2)) =
        some (Float64.ofDecimal 300 2, 1, 1, true) ∧
    (startProgramTwice parseFloatDecimal [Select.restart] [] connectedConfig twoRunWorld).map
      (fun r => (r.1.DesiredMinRate, r.1.DesiredMaxRate, r.1.LastNotifiedRate,
        notifyCount r.2.1.trace, r.2.1.fetches)) =
        some (Float64.ofDecimal 250 2, Float64.ofDecimal 300 2, Float64.ofDecimal 300 2, 1, 2) := by
  decide

/-- C12, amended. A restart does not reset LastNotifiedRate: the restart
round leaves the configuration as it is, and when startProgram is entered
again setupUserPreferences writes only the bounds and the target, so the new
run starts with the LastNotifiedRate (and the Connected flag) of the old one.
Hence the first sample of the new run, when it equals the rate last notified
before the restart, does not notify and leaves the configuration unchanged;
an out-of-range first sample that differs from it notifies and becomes the
new LastNotifiedRate. -/
theorem restart_keeps_lastNotifiedRate (ParseFloat : String → Option Float64) (config : Config)
    (w : World) (config1 : Config) (w1 : World)
    (hsetup : setupUserPreferences ParseFloat config w = some (config1, w1)) :
    config1.LastNotifiedRate = config.LastNotifiedRate ∧
    config1.Connected = config.Connected ∧
    (∀ st : LoopState, (loopStep ParseFloat Select.restart st).1.config = st.config) ∧
    (∀ v, sampleOf ParseFloat (w1.fetchResult w1.fetches) = Except.ok v →
      Float64.eq v config.LastNotifiedRate = true →
      notifyCount (startProgramInit ParseFloat config1 w1).world.trace = notifyCount w1.trace ∧
      (startProgramInit ParseFloat config1 w1).config = config1) ∧
    (∀ v, sampleOf ParseFloat (w1.fetchResult w1.fetches) = Except.ok v →
      (Float64.le v config1.DesiredMinRate = true ∨ Float64.ge v config1.DesiredMaxRate = true) →
      Float64.ne v config.LastNotifiedRate = true →
      notifyCount (startProgramInit ParseFloat config1 w1).world.trace = notifyCount w1.trace + 1 ∧
      (startProgramInit ParseFloat config1 w1).config.LastNotifiedRate = v) := by
  obtain ⟨hlast, hconn⟩ := setupUserPreferences_keeps ParseFloat config w config1 w1 hsetup
  refine ⟨hlast, hconn, fun st => rfl, ?_, ?_⟩
  · intro v hv heq
    have hs : shouldNotify v config1 = false := by
      simp [shouldNotify, hlast, Float64.ne, heq]
    obtain ⟨h1, h2⟩ := startProgramInit_first_sample ParseFloat config1 w1 v hv
    rw [h1, h2]
    simp [hs]
  · intro v hv hout hne
    have hs : shouldNotify v config1 = true := by
      simp only [shouldNotify, hlast, hne, Bool.and_true, Bool.or_eq_true]
      exact hout
    obtain ⟨h1, h2⟩ := startProgramInit_first_sample ParseFloat config1 w1 v hv
    rw [h1, h2]
    simp [hs]

/-- Witness of C12: the second run of the example, entered with 3.00 as the
rate last notified, sets the bounds again and keeps that rate. -/
theorem restart_keeps_lastNotifiedRate_witness :
    setupUserPreferences parseFloatDecimal
        { connectedConfig with LastNotifiedRate := Float64.ofDecimal 300 2 } startWorld =
      some (notifiedConfig, afterSetupWorld) ∧
    notifiedConfig.LastNotifiedRate = Float64.ofDecimal 300 2 :=
  ⟨rfl,
   (restart_keeps_lastNotifiedRate parseFloatDecimal
      { connectedConfig with LastNotifiedRate := Float64.ofDecimal 300 2 } startWorld
      notifiedConfig afterSetupWorld rfl).1⟩

end CimbGo

